import Mathlib

/-!
Verification of the `crash` proxy-core supervisor (Rust) against its
natural-language specification.

The development shallowly embeds the relevant program fragments:

* Rust strings are modelled as `String` / `List Char`; the string
  primitives `str::replace`, `str::lines`, `str::contains` and
  `str::starts_with` are given executable models below.
* `u64` arithmetic is modelled on `Nat` with an explicit `% 2 ^ 64`
  exactly where the Rust computation can overflow (release-build
  wrapping semantics).
* Stateful operations (process start/stop, config update) are modelled
  as pure functions from a configuration value and an environment
  snapshot (filesystem existence, process-table liveness, clock, OS
  call results) to an `Except` result together with the list of
  observable effects (kill / spawn / save / fetch / write) in the order
  they are performed.
* serde_json values are modelled by the inductive `JValue` (numbers
  restricted to integers, which suffices for every claim considered);
  the derived `Deserialize` semantics for the `CrashConfig` struct
  (field-by-field visitor, unknown fields ignored, missing fields an
  error unless marked `#[serde(default)]`) is embedded executably.

File layout: all definitions first, then all theorems.
-/

/-! ## Rust string primitives -/

/-- Model of Rust `str::replace(pat, rep)` scanning: `skip` counts characters
still to be copied over silently because they belong to an occurrence that
was already replaced.  With `skip = 0` this performs leftmost,
non-overlapping replacement, exactly `str::replace` for a nonempty pattern
(the sources only ever use the nonempty pattern `- 'RULE-SET,`). -/
def replaceGo (pat rep : List Char) : Nat → List Char → List Char
  | _, [] => []
  | n + 1, _ :: rest => replaceGo pat rep n rest
  | 0, c :: rest =>
    if pat.isPrefixOf (c :: rest) then
      rep ++ replaceGo pat rep (pat.length - 1) rest
    else
      c :: replaceGo pat rep 0 rest

/-- Model of Rust `str::replace` (leftmost, non-overlapping) for a nonempty
pattern, on character lists. -/
def rustReplace (pat rep s : List Char) : List Char :=
  replaceGo pat rep 0 s

/-- Model of Rust `str::contains` with a string pattern: some occurrence of
`needle` as a contiguous substring. -/
def rustContains (needle : List Char) : List Char → Bool
  | [] => needle.isEmpty
  | c :: rest => needle.isPrefixOf (c :: rest) || rustContains needle rest

/-- Split a character list at every `'\n'`; always returns at least one
(possibly empty) segment. -/
def splitNl : List Char → List (List Char)
  | [] => [[]]
  | c :: rest =>
    if c = '\n' then [] :: splitNl rest
    else
      match splitNl rest with
      | [] => [[c]]
      | l :: ls => (c :: l) :: ls

/-- Strip one trailing `'\r'` (Rust `str::lines` treats `\r\n` as a line
terminator). -/
def stripCr (l : List Char) : List Char :=
  match l.getLast? with
  | some '\r' => l.dropLast
  | _ => l

/-- Model of Rust `str::lines`: split at `'\n'`, drop a final empty segment
(produced by a trailing newline or by the empty string), strip one trailing
`'\r'` from each line. -/
def rustLines (s : List Char) : List (List Char) :=
  let segs := splitNl s
  (if segs.getLast? = some [] then segs.dropLast else segs).map stripCr

/-! ## Core variant metadata (src/config/core.rs) -/

/-- `Core` enum (src/config/core.rs): which proxy-core binary is managed. -/
inductive Core
  | Mihomo
  | Clash
  | Singbox
deriving DecidableEq

/-- `Core::name` via `strum::IntoStaticStr`: the variant's identifier. -/
def Core.name : Core → String
  | .Mihomo => "Mihomo"
  | .Clash => "Clash"
  | .Singbox => "Singbox"

/-- `platform::path::exe_extension`: `".exe"` on Windows, `""` otherwise.
This development models the Unix branch. -/
def exe_extension : String := ""

/-- `Core::exe_name` (src/config/core.rs): name plus platform extension. -/
def Core.exe_name (c : Core) : String := c.name ++ exe_extension

/-- `PathBuf::join` with the Unix separator, for paths rendered as text. -/
def pathJoin (dir name : String) : String := dir ++ "/" ++ name

/-- `Core::exe_path` (src/config/core.rs). -/
def Core.exe_path (c : Core) (config_dir : String) : String :=
  pathJoin config_dir c.exe_name

/-- `Core::config_file_name` (src/config/core.rs). -/
def Core.config_file_name : Core → String
  | .Mihomo => "Mihomo.yaml"
  | .Clash => "Clash.yaml"
  | .Singbox => "Singbox.json"

/-! ## Web UI configuration (src/config/web.rs) -/

/-- `UiType` enum (src/config/web.rs). -/
inductive UiType
  | Metacubexd
  | Zashboard
  | Yacd
deriving DecidableEq

/-- `WebConfig::ui_name` via `strum::IntoStaticStr`. -/
def UiType.name : UiType → String
  | .Metacubexd => "Metacubexd"
  | .Zashboard => "Zashboard"
  | .Yacd => "Yacd"

/-- `WebConfig` struct (src/config/web.rs). -/
structure WebConfig where
  ui : UiType
  host : String
  secret : String
deriving DecidableEq

/-! ## Configuration patchers

`Core::patch_config` (src/config/core.rs lines 133-182) and
`CrashConfig::patch_config` (src/config/mod.rs lines 441-519) are two
near-duplicate implementations.  Each `Mihomo`/`Clash` match arm is embedded
separately from its own source location; the `Singbox` arms operate on
parsed JSON and are embedded at the `serde_json::Value` level below
(`merge_json`), which is what claim C9 is about. -/

/-- The fixed default tun block appended by the Mihomo patcher (identical
raw-string literal in src/config/core.rs and src/config/mod.rs; it begins
and ends with a newline). -/
def TUN_PATCH : String :=
  "\n# Crash default tun\ntun:\n  enable: true\n  device: Meta\n  stack: gVisor\n  dns-hijack:\n    - 0.0.0.0:53\n  auto-route: true\n  auto-detect-interface: true\n  gso-max-size: 65536\n  file-descriptor: 0\n  recvmsgx: true\n"

/-- `Core::patch_config`, `Core::Mihomo` arm (src/config/core.rs
lines 135-159): if no line starts with `tun`, append
`format!("{}\n{}", config, TUN_PATCH)`; otherwise return the input. -/
def Core.patch_config_mihomo (config : String) : String :=
  let has_tun := (rustLines config.data).any (fun i => List.isPrefixOf "tun".data i)
  if has_tun then config else config ++ "\n" ++ TUN_PATCH

/-- `Core::patch_config`, `Core::Clash` arm (src/config/core.rs line 160):
`config.replace("- 'RULE-SET,", "#- 'RULE-SET,")`. -/
def Core.patch_config_clash (config : String) : String :=
  String.mk (rustReplace "- 'RULE-SET,".data "#- 'RULE-SET,".data config.data)

/-- `CrashConfig::patch_config`, `Core::Mihomo` arm (src/config/mod.rs
lines 443-467). -/
def CrashConfig.patch_config_mihomo (config : String) : String :=
  let has_tun := (rustLines config.data).any (fun i => List.isPrefixOf "tun".data i)
  if has_tun then config else config ++ "\n" ++ TUN_PATCH

/-- `CrashConfig::patch_config`, `Core::Clash` arm (src/config/mod.rs
line 468). -/
def CrashConfig.patch_config_clash (config : String) : String :=
  String.mk (rustReplace "- 'RULE-SET,".data "#- 'RULE-SET,".data config.data)

/-! ## serde_json value model and `merge_json` (src/config/mod.rs) -/

/-- Model of `serde_json::Value`.  Objects are association lists in document
order (serde_json maps have unique keys; lookups take the first match).
Numbers are restricted to integers, which covers every value the claims
touch. -/
inductive JValue
  | null
  | bool (b : Bool)
  | num (n : Int)
  | str (s : String)
  | arr (xs : List JValue)
  | obj (fields : List (String × JValue))

/-- `serde_json::Map::get` on the association-list model. -/
def lookupA : List (String × JValue) → String → Option JValue
  | [], _ => none
  | (k', v) :: rest, k => if k' = k then some v else lookupA rest k

/-- `serde_json::Map::get_mut` followed by in-place assignment: replace the
value of the first binding of `k`. -/
def updateA : List (String × JValue) → String → JValue → List (String × JValue)
  | [], _, _ => []
  | (k', v') :: rest, k, v =>
    if k' = k then (k', v) :: rest else (k', v') :: updateA rest k v

mutual

/-- `merge_json` (src/config/mod.rs lines 486-497): when both values are
objects, fold the source fields into the destination, recursing on keys the
destination already has and inserting the ones it lacks; otherwise the
destination is left unchanged. -/
def mergeJson : JValue → JValue → JValue
  | .obj dst_map, .obj src_map => .obj (mergeFields dst_map src_map)
  | dst, _ => dst

/-- The `for (k, v) in src_map` loop body of `merge_json`, processing the
source fields left to right while mutating the destination map. -/
def mergeFields (dst_map : List (String × JValue)) :
    List (String × JValue) → List (String × JValue)
  | [] => dst_map
  | (k, v) :: rest =>
    mergeFields
      (match lookupA dst_map k with
        | some dst_v => updateA dst_map k (mergeJson dst_v v)
        | none => dst_map ++ [(k, v)])
      rest

end

/-- Key-path lookup in a `JValue`: follows object keys only (the merge never
descends into arrays). -/
def lookupPath : JValue → List String → Option JValue
  | v, [] => some v
  | .obj m, k :: ks =>
    match lookupA m k with
    | some v => lookupPath v ks
    | none => none
  | _, _ :: _ => none

/-- Whether a `JValue` is an object. -/
def JValue.isObj : JValue → Bool
  | .obj _ => true
  | _ => false

/-- The keys of an association list are pairwise distinct. -/
def keysDupFree : List (String × JValue) → Bool
  | [] => true
  | (k, _) :: rest => !(rest.any (fun kv => kv.1 == k)) && keysDupFree rest

mutual

/-- Every object inside the value has pairwise-distinct keys (true of every
value produced by parsing JSON text or by the `json!` macro). -/
def dupFree : JValue → Bool
  | .obj m => keysDupFree m && dupFreeFields m
  | _ => true

/-- `dupFree` on every value of a field list. -/
def dupFreeFields : List (String × JValue) → Bool
  | [] => true
  | (_, v) :: rest => dupFree v && dupFreeFields rest

end

/-- The `json!` patch merged into a Sing-box configuration by
`CrashConfig::patch_config` (src/config/mod.rs lines 502-513), with
`ui = self.web.ui.to_string()` and `secret = self.web.secret` passed in. -/
def experimentalPatch (ui secret : String) : JValue :=
  .obj [("experimental", .obj
    [("cache_file", .obj [("enabled", .bool true)]),
     ("clash_api", .obj
       [("external_controller", .str ":9090"),
        ("external_ui", .str ui),
        ("secret", .str secret)])])]

/-! ## Retry backoff (src/download/retry.rs and src/utils/download.rs) -/

/-- `2 ^ 64`, the modulus of wrapping `u64` arithmetic (Rust release-build
overflow semantics). -/
def U64_MOD : Nat := 2 ^ 64

/-- `RetryConfig` struct (src/download/retry.rs). -/
structure RetryConfig where
  max_retries : Nat
  initial_delay_ms : Nat
  max_delay_ms : Nat
deriving DecidableEq

/-- `RetryConfig::new` (src/download/retry.rs lines 14-20). -/
def RetryConfig.new (max_retries : Nat) : RetryConfig :=
  { max_retries := max_retries, initial_delay_ms := 1000, max_delay_ms := 30000 }

/-- `RetryConfig::default` (src/download/retry.rs lines 39-43). -/
def RetryConfig.defaultConfig : RetryConfig := RetryConfig.new 3

/-- `RetryConfig::calculate_delay` (src/download/retry.rs lines 24-36), in
milliseconds.  `2u64.pow(attempt - 1)` and the multiplication are `u64`
operations, hence the explicit wrap at `2 ^ 64`. -/
def RetryConfig.calculate_delay (c : RetryConfig) (attempt : Nat) : Nat :=
  if attempt = 0 then 0
  else
    let delay_ms := c.initial_delay_ms * (2 ^ (attempt - 1) % U64_MOD) % U64_MOD
    min delay_ms c.max_delay_ms

/-- Free function `calculate_delay` (src/utils/download.rs lines 20-32) with
the constants `INITIAL_DELAY_MS = 1000`, `MAX_DELAY_MS = 30000`, in
milliseconds; `u64` arithmetic wraps at `2 ^ 64`. -/
def calculate_delay (attempt : Nat) : Nat :=
  if attempt = 0 then 0
  else
    let delay_ms := 1000 * (2 ^ (attempt - 1) % U64_MOD) % U64_MOD
    min delay_ms 30000

/-! ## Persisted configuration and the process lifecycle (src/config/mod.rs)

The per-invocation environment (`Env`) is a snapshot of everything the code
observes from the outside world during one `start`/`stop` call: the install
directory path, the clock, whether the core executable file exists, whether
a process with the core's executable name is found in the process table,
and whether the OS kill/spawn calls succeed.  Both calls to
`current_timestamp()` inside one invocation are modelled by the same
`env.now` (the wall clock is read twice a few microseconds apart).
`Core::envs()` is called by `CrashConfig::start` but has no definition
anywhere in the sources; the spec only says each variant carries "process
environment variables".  No claim observes them, so the spawn effect
records the executable and argv only. -/

/-- `github_proxy::Proxy` (external crate): opaque to every claim; carried
through unchanged and compared only for equality. -/
structure Proxy where
  repr : String
deriving DecidableEq

/-- `guess_target::Target` (external crate): opaque to every claim. -/
structure Target where
  repr : String
deriving DecidableEq

/-- `CrashConfig` struct (src/config/mod.rs lines 30-44), the persisted
configuration.  Only `stop_force` carries `#[serde(default)]`. -/
structure CrashConfig where
  version : String
  start_time : Nat
  core : Core
  proxy : Proxy
  target : Target
  web : WebConfig
  url : String
  max_runtime_hours : Nat
  stop_force : Bool
deriving DecidableEq

/-- `CrashError` (src/error.rs), restricted to the variants the embedded
operations produce.  OS-generated message fragments (stderr text, io error
text) are omitted from the payload strings. -/
inductive CrashError
  | Config (msg : String)
  | Process (msg : String)
  | Download (msg : String)
  | Platform (msg : String)
deriving DecidableEq

/-- Observable side effects of one configuration operation, in order. -/
inductive Eff
  | save (cfg : CrashConfig)
  | kill (exe_name : String)
  | spawn (exe : String) (args : List String)
  | fetch (source : String)
  | write (content : String)
deriving DecidableEq

/-- Environment snapshot consumed by one `start`/`stop` invocation. -/
structure Env where
  config_dir : String
  now : Nat
  exe_exists : Bool
  pid_found : Bool
  kill_ok : Bool
  spawn_ok : Bool
deriving DecidableEq

/-- `CrashConfig::stop` (src/config/mod.rs lines 218-230): set
`stop_force := force`; `utils::process::stop` kills by executable name when
a process is found (no-op otherwise) and can fail; reset `start_time := 0`;
persist. -/
def CrashConfig.stop (cfg : CrashConfig) (force : Bool) (env : Env) :
    Except CrashError (CrashConfig × List Eff) :=
  let cfg1 : CrashConfig := { cfg with stop_force := force }
  if env.pid_found && !env.kill_ok then
    .error (.Process ("Failed to kill process " ++ cfg1.core.exe_name))
  else
    let kills := if env.pid_found then [Eff.kill cfg1.core.exe_name] else []
    let cfg2 : CrashConfig := { cfg1 with start_time := 0 }
    .ok (cfg2, kills ++ [Eff.save cfg2])

/-- `utils::process::start` (src/utils/process.rs lines 8-40): fail if the
executable is missing, fail if the OS spawn fails, otherwise spawn detached
with the given argv. -/
def processStart (exe_path : String) (args : List String) (env : Env) :
    Except CrashError (List Eff) :=
  if !env.exe_exists then
    .error (.Process ("Executable not found: " ++ exe_path))
  else if !env.spawn_ok then
    .error (.Process ("Failed to start process " ++ exe_path))
  else
    .ok [Eff.spawn exe_path args]

/-- The variant-specific argv built by `CrashConfig::start`
(src/config/mod.rs lines 186-206). -/
def startArgs (cfg : CrashConfig) (env : Env) : List String :=
  match cfg.core with
  | Core.Mihomo | Core.Clash =>
    ["-f", pathJoin env.config_dir cfg.core.config_file_name,
     "-ext-ctl", cfg.web.host,
     "-ext-ui", cfg.web.ui.name,
     "-d", env.config_dir]
  | Core.Singbox =>
    ["run",
     "-c", pathJoin env.config_dir cfg.core.config_file_name,
     "-D", env.config_dir]

/-- `CrashConfig::start` (src/config/mod.rs lines 134-215).  The returned
configuration is the in-memory `self` after the call; the effect list
records every kill, spawn and persisted save in order. -/
def CrashConfig.start (cfg : CrashConfig) (force : Bool) (env : Env) :
    Except CrashError (CrashConfig × List Eff) :=
  if cfg.stop_force && !force then
    .error (.Process "Skip starting proxy core: run 'crash start -f' instead.")
  else
    let (cfg1, effs1) :=
      if cfg.stop_force then
        let c : CrashConfig := { cfg with stop_force := false }
        (c, [Eff.save c])
      else (cfg, ([] : List Eff))
    let exe_path := cfg1.core.exe_path env.config_dir
    if !env.exe_exists then
      .error (.Process ("Core executable not found: " ++ exe_path ++
        ". Please run 'install' first."))
    else
      let gate : Except CrashError (Option (CrashConfig × List Eff)) :=
        if env.pid_found then
          if 0 < cfg1.max_runtime_hours ∧ 0 < cfg1.start_time then
            let runtime_seconds := env.now - cfg1.start_time
            let max_runtime_seconds := cfg1.max_runtime_hours * 3600
            if max_runtime_seconds ≤ runtime_seconds then
              (cfg1.stop false env).map some
            else if force then
              (cfg1.stop false env).map some
            else
              .ok none
          else if force then
            (cfg1.stop false env).map some
          else
            .ok none
        else
          .ok (some (cfg1, []))
      match gate with
      | .error e => .error e
      | .ok none => .ok (cfg1, effs1)
      | .ok (some (cfg2, effs2)) =>
        match processStart exe_path (startArgs cfg2 env) env with
        | .error e => .error e
        | .ok effs3 =>
          let cfg3 : CrashConfig := { cfg2 with start_time := env.now }
          .ok (cfg3, effs1 ++ effs2 ++ effs3 ++ [Eff.save cfg3])

/-! ## Derived `Deserialize` semantics for the persisted file (claim C5)

`#[derive(Deserialize)]` on a struct produces a visitor that walks the JSON
object's entries in document order, deserializes the value of every known
field as it is met (erroring on a duplicate), skips unknown fields, and
finally errors on the first (in declaration order) still-missing field that
is not marked `#[serde(default)]`.  `Proxy` and `Target` live in external
crates, so their value parsers are taken as parameters. -/

/-- Deserialize a JSON string (serde `String`). -/
def parseString : JValue → Except String String
  | .str s => .ok s
  | _ => .error "invalid type: expected a string"

/-- Deserialize a `u64`: an integer in `[0, 2^64)`. -/
def parseU64 : JValue → Except String Nat
  | .num n => if 0 ≤ n ∧ n < (U64_MOD : Int) then .ok n.toNat
              else .error "invalid value: integer out of range of u64"
  | _ => .error "invalid type: expected u64"

/-- Deserialize a `bool`. -/
def parseBool : JValue → Except String Bool
  | .bool b => .ok b
  | _ => .error "invalid type: expected a boolean"

/-- Deserialize the `Core` enum (serde unit variants are strings;
unknown values fail to parse rather than defaulting). -/
def parseCore : JValue → Except String Core
  | .str "Mihomo" => .ok .Mihomo
  | .str "Clash" => .ok .Clash
  | .str "Singbox" => .ok .Singbox
  | _ => .error "unknown variant of Core"

/-- Deserialize the `UiType` enum. -/
def parseUiType : JValue → Except String UiType
  | .str "Metacubexd" => .ok .Metacubexd
  | .str "Zashboard" => .ok .Zashboard
  | .str "Yacd" => .ok .Yacd
  | _ => .error "unknown variant of UiType"

/-- Partially-filled `WebConfig` during deserialization. -/
structure WAcc where
  ui : Option UiType := none
  host : Option String := none
  secret : Option String := none

/-- One visitor step for a `WebConfig` entry; unknown fields are skipped. -/
def webStep (acc : WAcc) (k : String) (v : JValue) : Except String WAcc :=
  match k with
  | "ui" =>
    if acc.ui.isSome then .error "duplicate field `ui`"
    else match parseUiType v with
      | .ok x => .ok { acc with ui := some x }
      | .error e => .error e
  | "host" =>
    if acc.host.isSome then .error "duplicate field `host`"
    else match parseString v with
      | .ok x => .ok { acc with host := some x }
      | .error e => .error e
  | "secret" =>
    if acc.secret.isSome then .error "duplicate field `secret`"
    else match parseString v with
      | .ok x => .ok { acc with secret := some x }
      | .error e => .error e
  | _ => .ok acc

/-- Visitor loop for `WebConfig`. -/
def webFields (acc : WAcc) : List (String × JValue) → Except String WAcc
  | [] => .ok acc
  | (k, v) :: rest =>
    match webStep acc k v with
    | .ok acc' => webFields acc' rest
    | .error e => .error e

/-- Missing-field check for `WebConfig` (no field has a serde default). -/
def webFinish (acc : WAcc) : Except String WebConfig :=
  match acc.ui with
  | none => .error "missing field `ui`"
  | some ui =>
    match acc.host with
    | none => .error "missing field `host`"
    | some host =>
      match acc.secret with
      | none => .error "missing field `secret`"
      | some secret => .ok { ui := ui, host := host, secret := secret }

/-- Derived `Deserialize` for `WebConfig`. -/
def parseWebConfig : JValue → Except String WebConfig
  | .obj fields =>
    match webFields {} fields with
    | .ok acc => webFinish acc
    | .error e => .error e
  | _ => .error "invalid type: expected struct WebConfig"

/-- Partially-filled `CrashConfig` during deserialization. -/
structure DeAcc where
  version : Option String := none
  start_time : Option Nat := none
  core : Option Core := none
  proxy : Option Proxy := none
  target : Option Target := none
  web : Option WebConfig := none
  url : Option String := none
  max_runtime_hours : Option Nat := none
  stop_force : Option Bool := none

/-- One visitor step for a `CrashConfig` entry; unknown fields are
skipped (serde's default behaviour — there is no
`#[serde(deny_unknown_fields)]` on the struct). -/
def deStep (pp : JValue → Except String Proxy)
    (pt : JValue → Except String Target)
    (acc : DeAcc) (k : String) (v : JValue) : Except String DeAcc :=
  match k with
  | "version" =>
    if acc.version.isSome then .error "duplicate field `version`"
    else match parseString v with
      | .ok x => .ok { acc with version := some x }
      | .error e => .error e
  | "start_time" =>
    if acc.start_time.isSome then .error "duplicate field `start_time`"
    else match parseU64 v with
      | .ok x => .ok { acc with start_time := some x }
      | .error e => .error e
  | "core" =>
    if acc.core.isSome then .error "duplicate field `core`"
    else match parseCore v with
      | .ok x => .ok { acc with core := some x }
      | .error e => .error e
  | "proxy" =>
    if acc.proxy.isSome then .error "duplicate field `proxy`"
    else match pp v with
      | .ok x => .ok { acc with proxy := some x }
      | .error e => .error e
  | "target" =>
    if acc.target.isSome then .error "duplicate field `target`"
    else match pt v with
      | .ok x => .ok { acc with target := some x }
      | .error e => .error e
  | "web" =>
    if acc.web.isSome then .error "duplicate field `web`"
    else match parseWebConfig v with
      | .ok x => .ok { acc with web := some x }
      | .error e => .error e
  | "url" =>
    if acc.url.isSome then .error "duplicate field `url`"
    else match parseString v with
      | .ok x => .ok { acc with url := some x }
      | .error e => .error e
  | "max_runtime_hours" =>
    if acc.max_runtime_hours.isSome then .error "duplicate field `max_runtime_hours`"
    else match parseU64 v with
      | .ok x => .ok { acc with max_runtime_hours := some x }
      | .error e => .error e
  | "stop_force" =>
    if acc.stop_force.isSome then .error "duplicate field `stop_force`"
    else match parseBool v with
      | .ok x => .ok { acc with stop_force := some x }
      | .error e => .error e
  | _ => .ok acc

/-- Visitor loop for `CrashConfig`. -/
def deFields (pp : JValue → Except String Proxy)
    (pt : JValue → Except String Target)
    (acc : DeAcc) : List (String × JValue) → Except String DeAcc
  | [] => .ok acc
  | (k, v) :: rest =>
    match deStep pp pt acc k v with
    | .ok acc' => deFields pp pt acc' rest
    | .error e => .error e

/-- Missing-field check for `CrashConfig`, in declaration order.  Only
`stop_force` carries `#[serde(default)]` (src/config/mod.rs lines 42-43),
so only it falls back to its default (`false`) when absent. -/
def deFinish (acc : DeAcc) : Except String CrashConfig :=
  match acc.version with
  | none => .error "missing field `version`"
  | some version =>
    match acc.start_time with
    | none => .error "missing field `start_time`"
    | some start_time =>
      match acc.core with
      | none => .error "missing field `core`"
      | some core =>
        match acc.proxy with
        | none => .error "missing field `proxy`"
        | some proxy =>
          match acc.target with
          | none => .error "missing field `target`"
          | some target =>
            match acc.web with
            | none => .error "missing field `web`"
            | some web =>
              match acc.url with
              | none => .error "missing field `url`"
              | some url =>
                match acc.max_runtime_hours with
                | none => .error "missing field `max_runtime_hours`"
                | some max_runtime_hours =>
                  .ok { version := version, start_time := start_time,
                        core := core, proxy := proxy, target := target,
                        web := web, url := url,
                        max_runtime_hours := max_runtime_hours,
                        stop_force := acc.stop_force.getD false }

/-- Derived `Deserialize` for `CrashConfig` (the parse that
`CrashConfig::load` applies to the persisted JSON file). -/
def CrashConfig.deserialize (pp : JValue → Except String Proxy)
    (pt : JValue → Except String Target) : JValue → Except String CrashConfig
  | .obj fields =>
    match deFields pp pt {} fields with
    | .ok acc => deFinish acc
    | .error e => .error e
  | _ => .error "invalid type: expected struct CrashConfig"

/-- `CrashConfig::validate` (src/config/mod.rs lines 110-127) as the
boolean the web-host check computes; the config-directory UTF-8 check
depends only on the environment and is modelled as passing. -/
def CrashConfig.hostValid (cfg : CrashConfig) : Bool :=
  List.isPrefixOf ":".data cfg.web.host.data ||
    rustContains ":".data cfg.web.host.data

/-- `CrashConfig::load` (src/config/mod.rs lines 65-90) on a present,
well-formed-JSON config file (the parsed `JValue` is the input): parse
with the derived deserializer, wrap a parse failure into a `Config` error,
validate, then immediately re-save. -/
def CrashConfig.load (pp : JValue → Except String Proxy)
    (pt : JValue → Except String Target) (j : JValue) :
    Except CrashError (CrashConfig × List Eff) :=
  match CrashConfig.deserialize pp pt j with
  | .error e => .error (.Config ("Failed to parse config file: " ++ e))
  | .ok cfg =>
    if cfg.hostValid then .ok (cfg, [Eff.save cfg])
    else .error (.Config ("Invalid web host format: " ++ cfg.web.host))

/-! ## `update_config` (src/config/mod.rs lines 549-602, claim C8) -/

/-- `is_url` (src/utils/mod.rs lines 132-134). -/
def is_url (s : String) : Bool :=
  List.isPrefixOf "http://".data s.data || List.isPrefixOf "https://".data s.data

/-- Environment snapshot consumed by one `update_config` invocation. -/
structure UpdateEnv where
  dest_exists : Bool
  download : Except String String
  local_exists : Bool
  local_read : Except String String
  write_ok : Bool

/-- `CrashConfig::update_config` (src/config/mod.rs lines 549-602).
`patch` stands for `self.patch_config` (whose Mihomo/Clash arms are
embedded above as `CrashConfig.patch_config_mihomo` /
`CrashConfig.patch_config_clash`); the fetch and the final write are
recorded as effects. -/
def CrashConfig.update_config (cfg : CrashConfig) (patch : String → String)
    (force : Bool) (env : UpdateEnv) : Except CrashError (List Eff) :=
  let source := cfg.url
  if source = "" then
    .error (.Config
      "Configuration URL is empty. Please set it first with 'crash config url <url>'")
  else if env.dest_exists && !force then
    .ok []
  else
    let content : Except String String :=
      if is_url source then
        match env.download with
        | .ok text => .ok text
        | .error e => .error ("Failed to download configuration from URL: " ++ e)
      else if !env.local_exists then
        .error ("Configuration source not found: " ++ source ++
          " (not a valid URL or local file)")
      else
        match env.local_read with
        | .ok text => .ok text
        | .error e => .error ("Failed to read local configuration file: " ++ e)
    match content with
    | .error e => .error (.Config e)
    | .ok text =>
      let patched_content := patch text
      if env.write_ok then
        .ok [Eff.fetch source, Eff.write patched_content]
      else
        .error (.Config "Failed to write configuration to the core config path")

/-! ## Concrete sample values used by witnesses and counterexamples -/

/-- A well-formed persisted configuration (Mihomo defaults, `stop_force`
clear). -/
def cfgSample : CrashConfig :=
  { version := "0.1.0", start_time := 10000, core := Core.Mihomo,
    proxy := ⟨"Github"⟩, target := ⟨"X86_64UnknownLinuxGnu"⟩,
    web := { ui := UiType.Metacubexd, host := ":9090", secret := "" },
    url := "", max_runtime_hours := 0, stop_force := false }

/-- The same configuration with the transient `stop_force` flag set (the
state an explicit `crash stop -f` leaves behind). -/
def cfgStopForced : CrashConfig := { cfgSample with stop_force := true }

/-- Environment: executable installed, core not running, OS calls succeed. -/
def envNotRunning : Env :=
  { config_dir := "/opt/crash/crash_config", now := 13700,
    exe_exists := true, pid_found := false, kill_ok := true, spawn_ok := true }

/-- Environment: executable installed, core running, OS calls succeed. -/
def envRunning : Env := { envNotRunning with pid_found := true }

/-- Proxy parser stub standing for the external `github_proxy::Proxy`
deserializer in closed instances. -/
def ppStub : JValue → Except String Proxy
  | .str s => .ok ⟨s⟩
  | _ => .error "invalid type: expected a string"

/-- Target parser stub standing for the external `guess_target::Target`
deserializer in closed instances. -/
def ptStub : JValue → Except String Target
  | .str s => .ok ⟨s⟩
  | _ => .error "invalid type: expected a string"

/-- A complete persisted-file JSON object for `cfgSample`-like data, minus
the `max_runtime_hours` entry. -/
def fieldsNoMaxRuntime : List (String × JValue) :=
  [("version", .str "0.1.0"), ("start_time", .num 10000),
   ("core", .str "Mihomo"), ("proxy", .str "Github"),
   ("target", .str "X86_64UnknownLinuxGnu"),
   ("web", .obj [("ui", .str "Metacubexd"), ("host", .str ":9090"),
                 ("secret", .str "")]),
   ("url", .str ""), ("stop_force", .bool false)]

/-- `cfgSample` with a one-hour max-runtime policy; together with
`envRunning` (clock 13700, `start_time` 10000) the process has been up for
3700 seconds, past the 3600-second bound. -/
def cfgMaxRuntime : CrashConfig := { cfgSample with max_runtime_hours := 1 }

/-! ## Helper lemmas on the string primitives -/

/-- `List.isPrefixOf` unfolded on two cons cells. -/
theorem isPrefixOf_cons_cons (a b : Char) (as bs : List Char) :
    List.isPrefixOf (a :: as) (b :: bs) = (a == b && List.isPrefixOf as bs) := rfl

/-- Boolean prefix test as an append decomposition. -/
theorem isPrefixOf_iff_append (l : List Char) :
    ∀ s : List Char, l.isPrefixOf s = true ↔ ∃ t, s = l ++ t := by
  induction l with
  | nil => intro s; simp [List.isPrefixOf]
  | cons a as ih =>
    intro s
    cases s with
    | nil =>
      simp [List.isPrefixOf]
    | cons b bs =>
      rw [isPrefixOf_cons_cons]
      constructor
      · intro h
        have hab : a = b := by
          have := (Bool.and_eq_true _ _).mp h |>.1
          exact eq_of_beq this
        obtain ⟨t, ht⟩ := (ih bs).mp ((Bool.and_eq_true _ _).mp h |>.2)
        exact ⟨t, by simp [hab, ht]⟩
      · rintro ⟨t, ht⟩
        injection ht with h1 h2
        subst h1
        simp [(ih bs).mpr ⟨t, h2⟩]

/-- A list is a Boolean prefix of itself followed by anything. -/
theorem isPrefixOf_self_append (l t : List Char) :
    l.isPrefixOf (l ++ t) = true :=
  (isPrefixOf_iff_append l (l ++ t)).mpr ⟨t, rfl⟩

/-- If `a ++ b` is a Boolean prefix of `s`, so is `a`. -/
theorem isPrefixOf_of_append_left (a b s : List Char)
    (h : (a ++ b).isPrefixOf s = true) : a.isPrefixOf s = true := by
  obtain ⟨t, ht⟩ := (isPrefixOf_iff_append _ s).mp h
  exact (isPrefixOf_iff_append a s).mpr ⟨b ++ t, by simp [ht]⟩

/-- `rustContains` unfolded on a cons cell. -/
theorem rustContains_cons (n : List Char) (c : Char) (rest : List Char) :
    rustContains n (c :: rest) = (n.isPrefixOf (c :: rest) || rustContains n rest) := rfl

/-- A Boolean prefix is contained. -/
theorem rustContains_of_isPrefixOf (n h : List Char)
    (hp : n.isPrefixOf h = true) : rustContains n h = true := by
  cases h with
  | nil =>
    obtain ⟨t, ht⟩ := (isPrefixOf_iff_append n []).mp hp
    cases n with
    | nil => rfl
    | cons a as => simp at ht
  | cons c rest => simp [rustContains_cons, hp]

/-- Containment is stable under prepending. -/
theorem rustContains_append_left (n : List Char) :
    ∀ (a h : List Char), rustContains n h = true → rustContains n (a ++ h) = true := by
  intro a
  induction a with
  | nil => intro h hh; simpa using hh
  | cons c cs ih =>
    intro h hh
    have := ih h hh
    simp [rustContains_cons, this]

/-- Skipping exactly the length of a prefix lands right after it. -/
theorem replaceGo_skip (pat rep : List Char) :
    ∀ (a t : List Char), replaceGo pat rep a.length (a ++ t) = replaceGo pat rep 0 t := by
  intro a
  induction a with
  | nil => intro t; rfl
  | cons c cs ih => intro t; simpa [replaceGo] using ih t

/-! ## C6 — retry backoff schedule -/

/-- C6 counterexample: the claim asserts `calculate_delay n = 30000` for
every attempt `n ≥ 6`, but at `n = 62` the wrapping `u64` product
`1000 * 2^61` is exactly `125 * 2^64 ≡ 0`, so the computed delay is `0`,
not the 30-second cap. -/
theorem calculate_delay_wraps_to_zero :
    calculate_delay 62 = 0 ∧ calculate_delay 62 ≠ 30000 := by
  constructor <;> decide

/-- C6 (amended): `calculate_delay 0 = 0`; for `1 ≤ n ≤ 61` (every attempt
for which the wrapping `u64` product has not collapsed to zero — callers
only ever pass `n ≤ 3`) the delay is `min (1000 * 2^(n-1)) 30000` ms, so
attempts 0..3 give `[0, 1000, 2000, 4000]`, attempt 5 gives 16000 and
attempt 10 gives the 30000 cap; the `RetryConfig` copy of the function
agrees with the free function at the default configuration. -/
theorem calculate_delay_schedule :
    calculate_delay 0 = 0 ∧
    (∀ n : Nat, 1 ≤ n → n ≤ 61 →
      calculate_delay n = min (1000 * 2 ^ (n - 1)) 30000) ∧
    (List.range 4).map calculate_delay = [0, 1000, 2000, 4000] ∧
    calculate_delay 5 = 16000 ∧
    calculate_delay 10 = 30000 ∧
    (∀ n : Nat, RetryConfig.defaultConfig.calculate_delay n = calculate_delay n) := by
  refine ⟨rfl, ?_, by decide, by decide, by decide, fun n => rfl⟩
  have h : ∀ n < 62, 1 ≤ n → calculate_delay n = min (1000 * 2 ^ (n - 1)) 30000 := by decide
  exact fun n h1 h2 => h n (by omega) h1

/-- C6 witness: the amended schedule instantiated at attempt 10. -/
theorem calculate_delay_schedule_witness :
    calculate_delay 10 = min (1000 * 2 ^ 9) 30000 :=
  calculate_delay_schedule.2.1 10 (by decide) (by decide)

/-! ## C10 — the two duplicated patcher implementations agree -/

/-- C10: for every input string the standalone `Core::patch_config` and the
configuration-level `CrashConfig::patch_config` produce identical output on
the `Mihomo` and `Clash` variants. -/
theorem patch_config_duplicates_agree :
    (∀ s : String, Core.patch_config_mihomo s = CrashConfig.patch_config_mihomo s) ∧
    (∀ s : String, Core.patch_config_clash s = CrashConfig.patch_config_clash s) :=
  ⟨fun _ => rfl, fun _ => rfl⟩

/-! ## C2, C3, C4 — the `start` state machine -/

/-- The argv built by `start` does not depend on `start_time` or
`stop_force` (only on the core variant, the web settings and the install
directory). -/
theorem startArgs_time_irrel (cfg : CrashConfig) (env : Env) (x : Nat) (b : Bool) :
    startArgs { cfg with start_time := x, stop_force := b } env = startArgs cfg env := by
  obtain ⟨_, _, co, _, _, _, _, _, _⟩ := cfg
  cases co <;> rfl

/-- C2 counterexample: a configuration state in which the executable exists
and no process is running, yet `start(force=false)` fails without spawning:
the persisted `stop_force` flag is set, and its gate precedes every other
check. -/
theorem start_blocked_by_stop_force :
    CrashConfig.start cfgStopForced false envNotRunning =
      .error (.Process "Skip starting proxy core: run 'crash start -f' instead.") := rfl

/-- C2 (amended): in every configuration state in which `stop_force` is
clear, the core executable exists and no process with the core's executable
name is running (and the OS spawn call succeeds), `start(force=false)`
spawns the core with the variant-specific argv, sets `start_time := now`,
and persists the configuration, returning success. -/
theorem start_spawns_when_not_running (cfg : CrashConfig) (env : Env)
    (hsf : cfg.stop_force = false) (hexe : env.exe_exists = true)
    (hpid : env.pid_found = false) (hspawn : env.spawn_ok = true) :
    CrashConfig.start cfg false env =
      .ok ({ cfg with start_time := env.now },
        [Eff.spawn (cfg.core.exe_path env.config_dir) (startArgs cfg env),
         Eff.save { cfg with start_time := env.now }]) := by
  obtain ⟨ver, st, co, pr, ta, we, u, mr, sf⟩ := cfg
  obtain ⟨dir, now, ee, pf, ko, so⟩ := env
  simp only at hsf hexe hpid hspawn
  subst hsf hexe hpid hspawn
  simp [CrashConfig.start, processStart]

/-- C2 witness: the amended start behaviour at a concrete idle state. -/
theorem start_spawns_when_not_running_witness :
    CrashConfig.start cfgSample false envNotRunning =
      .ok ({ cfgSample with start_time := envNotRunning.now },
        [Eff.spawn (cfgSample.core.exe_path envNotRunning.config_dir)
           (startArgs cfgSample envNotRunning),
         Eff.save { cfgSample with start_time := envNotRunning.now }]) :=
  start_spawns_when_not_running cfgSample envNotRunning rfl rfl rfl rfl

/-- C3: when `start(force=false)` gets past the `stop_force` gate and the
executable check, finds the process running, and `max_runtime_hours > 0`,
`start_time > 0` and `now - start_time ≥ max_runtime_hours * 3600` (with
the OS kill and spawn calls succeeding), it stops the process and spawns it
again, recording `start_time = now` and persisting it. -/
theorem start_max_runtime_restart (cfg : CrashConfig) (env : Env)
    (hsf : cfg.stop_force = false) (hexe : env.exe_exists = true)
    (hpid : env.pid_found = true) (hkill : env.kill_ok = true)
    (hspawn : env.spawn_ok = true) (hmr : 0 < cfg.max_runtime_hours)
    (hst : 0 < cfg.start_time)
    (helapsed : cfg.max_runtime_hours * 3600 ≤ env.now - cfg.start_time) :
    CrashConfig.start cfg false env =
      .ok ({ cfg with start_time := env.now },
        [Eff.kill cfg.core.exe_name,
         Eff.save { cfg with start_time := 0 },
         Eff.spawn (cfg.core.exe_path env.config_dir) (startArgs cfg env),
         Eff.save { cfg with start_time := env.now }]) := by
  have hargs := startArgs_time_irrel cfg env 0 false
  obtain ⟨ver, st, co, pr, ta, we, u, mr, sf⟩ := cfg
  obtain ⟨dir, now, ee, pf, ko, so⟩ := env
  simp only at hsf hexe hpid hkill hspawn hmr hst helapsed hargs
  subst hsf hexe hpid hkill hspawn
  simp [CrashConfig.start, CrashConfig.stop, processStart, Except.map, hmr, hst,
    helapsed, hargs]

/-- C3 witness: `max_runtime_hours = 1`, persisted `start_time` 3700
seconds in the past, process running: `start(force=false)` kills, respawns
and persists `start_time = now`. -/
theorem start_max_runtime_restart_witness :
    CrashConfig.start cfgMaxRuntime false envRunning =
      .ok ({ cfgMaxRuntime with start_time := envRunning.now },
        [Eff.kill cfgMaxRuntime.core.exe_name,
         Eff.save { cfgMaxRuntime with start_time := 0 },
         Eff.spawn (cfgMaxRuntime.core.exe_path envRunning.config_dir)
           (startArgs cfgMaxRuntime envRunning),
         Eff.save { cfgMaxRuntime with start_time := envRunning.now }]) :=
  start_max_runtime_restart cfgMaxRuntime envRunning rfl rfl rfl rfl rfl
    (by decide) (by decide) (by decide)

/-- C4 counterexample: a state with the process running and
`max_runtime_hours = 0` in which `start(force=false)` does not return
success: the persisted `stop_force` flag is set, so the call fails (the
configuration is still left unchanged, but the claim's "returns success"
is violated). -/
theorem start_running_blocked_by_stop_force :
    CrashConfig.start cfgStopForced false envRunning =
      .error (.Process "Skip starting proxy core: run 'crash start -f' instead.") := rfl

/-- C4 (amended): with `stop_force` clear and the executable present,
calling `start(force=false)` while the process is running with
`max_runtime_hours = 0` returns success without killing, spawning or
saving anything: the returned configuration is exactly the input and the
effect trace is empty. -/
theorem start_noop_when_running (cfg : CrashConfig) (env : Env)
    (hsf : cfg.stop_force = false) (hexe : env.exe_exists = true)
    (hpid : env.pid_found = true) (hmax : cfg.max_runtime_hours = 0) :
    CrashConfig.start cfg false env = .ok (cfg, []) := by
  obtain ⟨ver, st, co, pr, ta, we, u, mr, sf⟩ := cfg
  obtain ⟨dir, now, ee, pf, ko, so⟩ := env
  simp only at hsf hexe hpid hmax
  subst hsf hexe hpid hmax
  simp [CrashConfig.start]

/-- C4 witness: the amended no-op behaviour at a concrete running state. -/
theorem start_noop_when_running_witness :
    CrashConfig.start cfgSample false envRunning = .ok (cfgSample, []) :=
  start_noop_when_running cfgSample envRunning rfl rfl rfl rfl

/-! ## C8 — `update_config` -/

/-- C8: `update_config(force)` (i) fails with a `Config` error when `url`
is empty (this check precedes everything else); (ii) is a no-op returning
success, fetching and writing nothing, whenever the destination core
config exists and `force` is false; past that guard it (iii) fails with a
`Config` error when `url` is a non-URL local path that does not exist, and
otherwise fetches the content — (iv) from the web when `url` has an
`http(s)://` scheme, (v) from the local file otherwise — applies the
variant patcher to it, and writes the result to the core's config path. -/
theorem update_config_spec (cfg : CrashConfig) (patch : String → String)
    (env : UpdateEnv) :
    (cfg.url = "" → ∀ force,
      cfg.update_config patch force env = .error (.Config
        "Configuration URL is empty. Please set it first with 'crash config url <url>'")) ∧
    (cfg.url ≠ "" → env.dest_exists = true →
      cfg.update_config patch false env = .ok []) ∧
    (∀ force, cfg.url ≠ "" → (env.dest_exists && !force) = false →
      is_url cfg.url = false → env.local_exists = false →
      cfg.update_config patch force env = .error (.Config
        ("Configuration source not found: " ++ cfg.url ++
          " (not a valid URL or local file)"))) ∧
    (∀ force content, cfg.url ≠ "" → (env.dest_exists && !force) = false →
      is_url cfg.url = true → env.download = .ok content → env.write_ok = true →
      cfg.update_config patch force env =
        .ok [Eff.fetch cfg.url, Eff.write (patch content)]) ∧
    (∀ force content, cfg.url ≠ "" → (env.dest_exists && !force) = false →
      is_url cfg.url = false → env.local_exists = true →
      env.local_read = .ok content → env.write_ok = true →
      cfg.update_config patch force env =
        .ok [Eff.fetch cfg.url, Eff.write (patch content)]) := by
  refine ⟨?_, ?_, ?_, ?_, ?_⟩
  · intro hurl force
    simp [CrashConfig.update_config, hurl]
  · intro hurl hdest
    simp [CrashConfig.update_config, hurl, hdest]
  · intro force hurl hguard hnu hnl
    simp [CrashConfig.update_config, hurl, hguard, hnu, hnl]
  · intro force content hurl hguard hu hdl hw
    simp [CrashConfig.update_config, hurl, hguard, hu, hdl, hw]
  · intro force content hurl hguard hnu hl hread hw
    simp [CrashConfig.update_config, hurl, hguard, hnu, hl, hread, hw]

/-- C8 witness: the empty-`url` failure at a concrete state (`cfgSample`
has an empty `url`). -/
theorem update_config_spec_witness :
    cfgSample.update_config id false
      ⟨false, .ok "", false, .ok "", true⟩ =
      .error (.Config
        "Configuration URL is empty. Please set it first with 'crash config url <url>'") :=
  (update_config_spec cfgSample id ⟨false, .ok "", false, .ok "", true⟩).1 rfl false

/-! ## C5 — loading a config file with missing / unknown fields -/

/-- Unfolding one successful visitor step of the `CrashConfig`
deserializer. -/
theorem deFields_cons_ok {pp : JValue → Except String Proxy}
    {pt : JValue → Except String Target} {acc : DeAcc} {k : String}
    {v : JValue} {acc' : DeAcc} (rest : List (String × JValue))
    (h : deStep pp pt acc k v = .ok acc') :
    deFields pp pt acc ((k, v) :: rest) = deFields pp pt acc' rest := by
  simp [deFields, h]

/-- `parseU64` succeeds on a natural number below `2 ^ 64`. -/
theorem parseU64_natCast (n : Nat) (h : n < 2 ^ 64) :
    parseU64 (.num (n : Int)) = .ok n := by
  have h1 : (0 : Int) ≤ (n : Int) := Int.natCast_nonneg n
  have h2 : (n : Int) < ((U64_MOD : Nat) : Int) := by exact_mod_cast h
  simp [parseU64, h1, h2]

/-- The strum/serde round trip on `Core` variant names. -/
theorem parseCore_name (c : Core) : parseCore (.str c.name) = .ok c := by
  cases c <;> rfl

/-- The strum/serde round trip on `UiType` variant names. -/
theorem parseUiType_name (ui : UiType) : parseUiType (.str ui.name) = .ok ui := by
  cases ui <;> rfl

/-- `CrashConfig.load` unfolded one step (symbolic argument). -/
theorem load_unfold (pp : JValue → Except String Proxy)
    (pt : JValue → Except String Target) (j : JValue) :
    CrashConfig.load pp pt j =
      match CrashConfig.deserialize pp pt j with
      | .error e => .error (.Config ("Failed to parse config file: " ++ e))
      | .ok cfg =>
        if cfg.hostValid then .ok (cfg, [Eff.save cfg])
        else .error (.Config ("Invalid web host format: " ++ cfg.web.host)) := rfl

/-- `CrashConfig.deserialize` unfolded on an object (symbolic fields). -/
theorem deserialize_obj_unfold (pp : JValue → Except String Proxy)
    (pt : JValue → Except String Target) (fields : List (String × JValue)) :
    CrashConfig.deserialize pp pt (.obj fields) =
      match deFields pp pt ⟨none, none, none, none, none, none, none, none, none⟩ fields with
      | .ok acc => deFinish acc
      | .error e => .error e := rfl

/-- Reduction of the `deserialize` result match on a success value. -/
theorem deserialize_match_ok (acc : DeAcc) :
    (match (.ok acc : Except String DeAcc) with
      | .ok acc => deFinish acc
      | .error e => .error e) = deFinish acc := rfl

/-- Reduction of the `load` result match on a success value. -/
theorem load_match_ok (cfg : CrashConfig) :
    (match (.ok cfg : Except String CrashConfig) with
      | .error e => (.error (.Config ("Failed to parse config file: " ++ e)) :
          Except CrashError (CrashConfig × List Eff))
      | .ok cfg =>
        if cfg.hostValid then .ok (cfg, [Eff.save cfg])
        else .error (.Config ("Invalid web host format: " ++ cfg.web.host))) =
      if cfg.hostValid then .ok (cfg, [Eff.save cfg])
      else .error (.Config ("Invalid web host format: " ++ cfg.web.host)) := rfl

/-- Reduction of the `load` result match on a parse error. -/
theorem load_match_err (e : String) :
    (match (.error e : Except String CrashConfig) with
      | .error e => (.error (.Config ("Failed to parse config file: " ++ e)) :
          Except CrashError (CrashConfig × List Eff))
      | .ok cfg =>
        if cfg.hostValid then .ok (cfg, [Eff.save cfg])
        else .error (.Config ("Invalid web host format: " ++ cfg.web.host))) =
      .error (.Config ("Failed to parse config file: " ++ e)) := rfl

/-- C5 counterexample: a persisted JSON object carrying every `CrashConfig`
field except `max_runtime_hours` does not load with a default — the derived
deserializer fails on the missing field and `load` surfaces a `Config`
error (only `stop_force` is marked `#[serde(default)]`). -/
theorem load_missing_field_fails :
    CrashConfig.load ppStub ptStub (.obj fieldsNoMaxRuntime) =
      .error (.Config "Failed to parse config file: missing field `max_runtime_hours`") := rfl

set_option maxRecDepth 8000 in
/-- C5 (amended): unknown extra fields are ignored and a missing
`stop_force` defaults to `false`, but omitting any other field — e.g.
`max_runtime_hours` or `url` — fails the parse with a `Config` error
naming the missing field rather than defaulting. -/
theorem load_unknown_and_default_fields
    (pp : JValue → Except String Proxy) (pt : JValue → Except String Target)
    (pv tv : JValue) (p : Proxy) (t : Target)
    (hp : pp pv = .ok p) (ht : pt tv = .ok t)
    (c : Core) (ui : UiType)
    (version host secret url : String) (st mrh : Nat) (sf : Bool) (extra : JValue)
    (hst : st < 2 ^ 64) (hmrh : mrh < 2 ^ 64)
    (hhost : (List.isPrefixOf ":".data host.data ||
      rustContains ":".data host.data) = true) :
    (CrashConfig.load pp pt (.obj
        [("version", .str version), ("start_time", .num st),
         ("core", .str c.name), ("proxy", pv), ("target", tv),
         ("web", .obj [("ui", .str ui.name), ("host", .str host),
                       ("secret", .str secret)]),
         ("url", .str url), ("max_runtime_hours", .num mrh),
         ("stop_force", .bool sf), ("a_future_field", extra)]) =
      .ok ({ version := version, start_time := st, core := c, proxy := p,
             target := t, web := { ui := ui, host := host, secret := secret },
             url := url, max_runtime_hours := mrh, stop_force := sf },
           [Eff.save { version := version, start_time := st, core := c,
                       proxy := p, target := t,
                       web := { ui := ui, host := host, secret := secret },
                       url := url, max_runtime_hours := mrh,
                       stop_force := sf }])) ∧
    (CrashConfig.load pp pt (.obj
        [("version", .str version), ("start_time", .num st),
         ("core", .str c.name), ("proxy", pv), ("target", tv),
         ("web", .obj [("ui", .str ui.name), ("host", .str host),
                       ("secret", .str secret)]),
         ("url", .str url), ("max_runtime_hours", .num mrh)]) =
      .ok ({ version := version, start_time := st, core := c, proxy := p,
             target := t, web := { ui := ui, host := host, secret := secret },
             url := url, max_runtime_hours := mrh, stop_force := false },
           [Eff.save { version := version, start_time := st, core := c,
                       proxy := p, target := t,
                       web := { ui := ui, host := host, secret := secret },
                       url := url, max_runtime_hours := mrh,
                       stop_force := false }])) ∧
    (CrashConfig.load pp pt (.obj
        [("version", .str version), ("start_time", .num st),
         ("core", .str c.name), ("proxy", pv), ("target", tv),
         ("web", .obj [("ui", .str ui.name), ("host", .str host),
                       ("secret", .str secret)]),
         ("url", .str url), ("stop_force", .bool sf)]) =
      .error (.Config "Failed to parse config file: missing field `max_runtime_hours`")) ∧
    (CrashConfig.load pp pt (.obj
        [("version", .str version), ("start_time", .num st),
         ("core", .str c.name), ("proxy", pv), ("target", tv),
         ("web", .obj [("ui", .str ui.name), ("host", .str host),
                       ("secret", .str secret)]),
         ("max_runtime_hours", .num mrh), ("stop_force", .bool sf)]) =
      .error (.Config "Failed to parse config file: missing field `url`")) := by
  have hu64st : parseU64 (.num (st : Int)) = .ok st := parseU64_natCast st hst
  have hu64mrh : parseU64 (.num (mrh : Int)) = .ok mrh := parseU64_natCast mrh hmrh
  have hweb : parseWebConfig (.obj [("ui", .str ui.name), ("host", .str host),
      ("secret", .str secret)]) = .ok { ui := ui, host := host, secret := secret } := by
    simp [parseWebConfig, webFields, webStep, webFinish, parseUiType_name,
      parseString]
  refine ⟨?_, ?_, ?_, ?_⟩
  ·
    have sA1 : deFields pp pt (⟨none, none, none, none, none, none, none, none, none⟩ : DeAcc)
        [("version", .str version),
         ("start_time", .num st),
         ("core", .str c.name),
         ("proxy", pv),
         ("target", tv),
         ("web", .obj [("ui", .str ui.name), ("host", .str host), ("secret", .str secret)]),
         ("url", .str url),
         ("max_runtime_hours", .num mrh),
         ("stop_force", .bool sf),
         ("a_future_field", extra)] =
        deFields pp pt (⟨some version, none, none, none, none, none, none, none, none⟩ : DeAcc)
        [("start_time", .num st),
         ("core", .str c.name),
         ("proxy", pv),
         ("target", tv),
         ("web", .obj [("ui", .str ui.name), ("host", .str host), ("secret", .str secret)]),
         ("url", .str url),
         ("max_runtime_hours", .num mrh),
         ("stop_force", .bool sf),
         ("a_future_field", extra)] :=
      deFields_cons_ok [("start_time", .num st),
         ("core", .str c.name),
         ("proxy", pv),
         ("target", tv),
         ("web", .obj [("ui", .str ui.name), ("host", .str host), ("secret", .str secret)]),
         ("url", .str url),
         ("max_runtime_hours", .num mrh),
         ("stop_force", .bool sf),
         ("a_future_field", extra)]
        (show deStep pp pt (⟨none, none, none, none, none, none, none, none, none⟩ : DeAcc) "version" (.str version) = .ok (⟨some version, none, none, none, none, none, none, none, none⟩ : DeAcc) from
          rfl)
    have sA2 : deFields pp pt (⟨some version, none, none, none, none, none, none, none, none⟩ : DeAcc)
        [("start_time", .num st),
         ("core", .str c.name),
         ("proxy", pv),
         ("target", tv),
         ("web", .obj [("ui", .str ui.name), ("host", .str host), ("secret", .str secret)]),
         ("url", .str url),
         ("max_runtime_hours", .num mrh),
         ("stop_force", .bool sf),
         ("a_future_field", extra)] =
        deFields pp pt (⟨some version, some st, none, none, none, none, none, none, none⟩ : DeAcc)
        [("core", .str c.name),
         ("proxy", pv),
         ("target", tv),
         ("web", .obj [("ui", .str ui.name), ("host", .str host), ("secret", .str secret)]),
         ("url", .str url),
         ("max_runtime_hours", .num mrh),
         ("stop_force", .bool sf),
         ("a_future_field", extra)] :=
      deFields_cons_ok [("core", .str c.name),
         ("proxy", pv),
         ("target", tv),
         ("web", .obj [("ui", .str ui.name), ("host", .str host), ("secret", .str secret)]),
         ("url", .str url),
         ("max_runtime_hours", .num mrh),
         ("stop_force", .bool sf),
         ("a_future_field", extra)]
        (show deStep pp pt (⟨some version, none, none, none, none, none, none, none, none⟩ : DeAcc) "start_time" (.num st) = .ok (⟨some version, some st, none, none, none, none, none, none, none⟩ : DeAcc) from
          (by simp [deStep, hu64st]))
    have sA3 : deFields pp pt (⟨some version, some st, none, none, none, none, none, none, none⟩ : DeAcc)
        [("core", .str c.name),
         ("proxy", pv),
         ("target", tv),
         ("web", .obj [("ui", .str ui.name), ("host", .str host), ("secret", .str secret)]),
         ("url", .str url),
         ("max_runtime_hours", .num mrh),
         ("stop_force", .bool sf),
         ("a_future_field", extra)] =
        deFields pp pt (⟨some version, some st, some c, none, none, none, none, none, none⟩ : DeAcc)
        [("proxy", pv),
         ("target", tv),
         ("web", .obj [("ui", .str ui.name), ("host", .str host), ("secret", .str secret)]),
         ("url", .str url),
         ("max_runtime_hours", .num mrh),
         ("stop_force", .bool sf),
         ("a_future_field", extra)] :=
      deFields_cons_ok [("proxy", pv),
         ("target", tv),
         ("web", .obj [("ui", .str ui.name), ("host", .str host), ("secret", .str secret)]),
         ("url", .str url),
         ("max_runtime_hours", .num mrh),
         ("stop_force", .bool sf),
         ("a_future_field", extra)]
        (show deStep pp pt (⟨some version, some st, none, none, none, none, none, none, none⟩ : DeAcc) "core" (.str c.name) = .ok (⟨some version, some st, some c, none, none, none, none, none, none⟩ : DeAcc) from
          (by simp [deStep, parseCore_name]))
    have sA4 : deFields pp pt (⟨some version, some st, some c, none, none, none, none, none, none⟩ : DeAcc)
        [("proxy", pv),
         ("target", tv),
         ("web", .obj [("ui", .str ui.name), ("host", .str host), ("secret", .str secret)]),
         ("url", .str url),
         ("max_runtime_hours", .num mrh),
         ("stop_force", .bool sf),
         ("a_future_field", extra)] =
        deFields pp pt (⟨some version, some st, some c, some p, none, none, none, none, none⟩ : DeAcc)
        [("target", tv),
         ("web", .obj [("ui", .str ui.name), ("host", .str host), ("secret", .str secret)]),
         ("url", .str url),
         ("max_runtime_hours", .num mrh),
         ("stop_force", .bool sf),
         ("a_future_field", extra)] :=
      deFields_cons_ok [("target", tv),
         ("web", .obj [("ui", .str ui.name), ("host", .str host), ("secret", .str secret)]),
         ("url", .str url),
         ("max_runtime_hours", .num mrh),
         ("stop_force", .bool sf),
         ("a_future_field", extra)]
        (show deStep pp pt (⟨some version, some st, some c, none, none, none, none, none, none⟩ : DeAcc) "proxy" (pv) = .ok (⟨some version, some st, some c, some p, none, none, none, none, none⟩ : DeAcc) from
          (by simp [deStep, hp]))
    have sA5 : deFields pp pt (⟨some version, some st, some c, some p, none, none, none, none, none⟩ : DeAcc)
        [("target", tv),
         ("web", .obj [("ui", .str ui.name), ("host", .str host), ("secret", .str secret)]),
         ("url", .str url),
         ("max_runtime_hours", .num mrh),
         ("stop_force", .bool sf),
         ("a_future_field", extra)] =
        deFields pp pt (⟨some version, some st, some c, some p, some t, none, none, none, none⟩ : DeAcc)
        [("web", .obj [("ui", .str ui.name), ("host", .str host), ("secret", .str secret)]),
         ("url", .str url),
         ("max_runtime_hours", .num mrh),
         ("stop_force", .bool sf),
         ("a_future_field", extra)] :=
      deFields_cons_ok [("web", .obj [("ui", .str ui.name), ("host", .str host), ("secret", .str secret)]),
         ("url", .str url),
         ("max_runtime_hours", .num mrh),
         ("stop_force", .bool sf),
         ("a_future_field", extra)]
        (show deStep pp pt (⟨some version, some st, some c, some p, none, none, none, none, none⟩ : DeAcc) "target" (tv) = .ok (⟨some version, some st, some c, some p, some t, none, none, none, none⟩ : DeAcc) from
          (by simp [deStep, ht]))
    have sA6 : deFields pp pt (⟨some version, some st, some c, some p, some t, none, none, none, none⟩ : DeAcc)
        [("web", .obj [("ui", .str ui.name), ("host", .str host), ("secret", .str secret)]),
         ("url", .str url),
         ("max_runtime_hours", .num mrh),
         ("stop_force", .bool sf),
         ("a_future_field", extra)] =
        deFields pp pt (⟨some version, some st, some c, some p, some t, some { ui := ui, host := host, secret := secret }, none, none, none⟩ : DeAcc)
        [("url", .str url),
         ("max_runtime_hours", .num mrh),
         ("stop_force", .bool sf),
         ("a_future_field", extra)] :=
      deFields_cons_ok [("url", .str url),
         ("max_runtime_hours", .num mrh),
         ("stop_force", .bool sf),
         ("a_future_field", extra)]
        (show deStep pp pt (⟨some version, some st, some c, some p, some t, none, none, none, none⟩ : DeAcc) "web" (.obj [("ui", .str ui.name), ("host", .str host), ("secret", .str secret)]) = .ok (⟨some version, some st, some c, some p, some t, some { ui := ui, host := host, secret := secret }, none, none, none⟩ : DeAcc) from
          (by simp [deStep, hweb]))
    have sA7 : deFields pp pt (⟨some version, some st, some c, some p, some t, some { ui := ui, host := host, secret := secret }, none, none, none⟩ : DeAcc)
        [("url", .str url),
         ("max_runtime_hours", .num mrh),
         ("stop_force", .bool sf),
         ("a_future_field", extra)] =
        deFields pp pt (⟨some version, some st, some c, some p, some t, some { ui := ui, host := host, secret := secret }, some url, none, none⟩ : DeAcc)
        [("max_runtime_hours", .num mrh),
         ("stop_force", .bool sf),
         ("a_future_field", extra)] :=
      deFields_cons_ok [("max_runtime_hours", .num mrh),
         ("stop_force", .bool sf),
         ("a_future_field", extra)]
        (show deStep pp pt (⟨some version, some st, some c, some p, some t, some { ui := ui, host := host, secret := secret }, none, none, none⟩ : DeAcc) "url" (.str url) = .ok (⟨some version, some st, some c, some p, some t, some { ui := ui, host := host, secret := secret }, some url, none, none⟩ : DeAcc) from
          rfl)
    have sA8 : deFields pp pt (⟨some version, some st, some c, some p, some t, some { ui := ui, host := host, secret := secret }, some url, none, none⟩ : DeAcc)
        [("max_runtime_hours", .num mrh),
         ("stop_force", .bool sf),
         ("a_future_field", extra)] =
        deFields pp pt (⟨some version, some st, some c, some p, some t, some { ui := ui, host := host, secret := secret }, some url, some mrh, none⟩ : DeAcc)
        [("stop_force", .bool sf),
         ("a_future_field", extra)] :=
      deFields_cons_ok [("stop_force", .bool sf),
         ("a_future_field", extra)]
        (show deStep pp pt (⟨some version, some st, some c, some p, some t, some { ui := ui, host := host, secret := secret }, some url, none, none⟩ : DeAcc) "max_runtime_hours" (.num mrh) = .ok (⟨some version, some st, some c, some p, some t, some { ui := ui, host := host, secret := secret }, some url, some mrh, none⟩ : DeAcc) from
          (by simp [deStep, hu64mrh]))
    have sA9 : deFields pp pt (⟨some version, some st, some c, some p, some t, some { ui := ui, host := host, secret := secret }, some url, some mrh, none⟩ : DeAcc)
        [("stop_force", .bool sf),
         ("a_future_field", extra)] =
        deFields pp pt (⟨some version, some st, some c, some p, some t, some { ui := ui, host := host, secret := secret }, some url, some mrh, some sf⟩ : DeAcc)
        [("a_future_field", extra)] :=
      deFields_cons_ok [("a_future_field", extra)]
        (show deStep pp pt (⟨some version, some st, some c, some p, some t, some { ui := ui, host := host, secret := secret }, some url, some mrh, none⟩ : DeAcc) "stop_force" (.bool sf) = .ok (⟨some version, some st, some c, some p, some t, some { ui := ui, host := host, secret := secret }, some url, some mrh, some sf⟩ : DeAcc) from
          rfl)
    have sA10 : deFields pp pt (⟨some version, some st, some c, some p, some t, some { ui := ui, host := host, secret := secret }, some url, some mrh, some sf⟩ : DeAcc)
        [("a_future_field", extra)] =
        deFields pp pt (⟨some version, some st, some c, some p, some t, some { ui := ui, host := host, secret := secret }, some url, some mrh, some sf⟩ : DeAcc)
        ([] : List (String × JValue)) :=
      deFields_cons_ok ([] : List (String × JValue))
        (show deStep pp pt (⟨some version, some st, some c, some p, some t, some { ui := ui, host := host, secret := secret }, some url, some mrh, some sf⟩ : DeAcc) "a_future_field" (extra) = .ok (⟨some version, some st, some c, some p, some t, some { ui := ui, host := host, secret := secret }, some url, some mrh, some sf⟩ : DeAcc) from
          rfl)
    have hDF : deFields pp pt (⟨none, none, none, none, none, none, none, none, none⟩ : DeAcc)
        [("version", .str version),
         ("start_time", .num st),
         ("core", .str c.name),
         ("proxy", pv),
         ("target", tv),
         ("web", .obj [("ui", .str ui.name), ("host", .str host), ("secret", .str secret)]),
         ("url", .str url),
         ("max_runtime_hours", .num mrh),
         ("stop_force", .bool sf),
         ("a_future_field", extra)] = .ok (⟨some version, some st, some c, some p, some t, some { ui := ui, host := host, secret := secret }, some url, some mrh, some sf⟩ : DeAcc) :=
      sA1.trans (sA2.trans (sA3.trans (sA4.trans (sA5.trans (sA6.trans (sA7.trans (sA8.trans (sA9.trans (sA10.trans rfl)))))))))
    have hFin : deFinish (⟨some version, some st, some c, some p, some t, some { ui := ui, host := host, secret := secret }, some url, some mrh, some sf⟩ : DeAcc) = .ok ({ version := version, start_time := st, core := c, proxy := p, target := t, web := { ui := ui, host := host, secret := secret }, url := url, max_runtime_hours := mrh, stop_force := sf } : CrashConfig) := rfl
    have hv : CrashConfig.hostValid ({ version := version, start_time := st, core := c, proxy := p, target := t, web := { ui := ui, host := host, secret := secret }, url := url, max_runtime_hours := mrh, stop_force := sf } : CrashConfig) = true := hhost
    rw [load_unfold, deserialize_obj_unfold, hDF, deserialize_match_ok, hFin,
      load_match_ok, if_pos hv]
  ·
    have sB1 : deFields pp pt (⟨none, none, none, none, none, none, none, none, none⟩ : DeAcc)
        [("version", .str version),
         ("start_time", .num st),
         ("core", .str c.name),
         ("proxy", pv),
         ("target", tv),
         ("web", .obj [("ui", .str ui.name), ("host", .str host), ("secret", .str secret)]),
         ("url", .str url),
         ("max_runtime_hours", .num mrh)] =
        deFields pp pt (⟨some version, none, none, none, none, none, none, none, none⟩ : DeAcc)
        [("start_time", .num st),
         ("core", .str c.name),
         ("proxy", pv),
         ("target", tv),
         ("web", .obj [("ui", .str ui.name), ("host", .str host), ("secret", .str secret)]),
         ("url", .str url),
         ("max_runtime_hours", .num mrh)] :=
      deFields_cons_ok [("start_time", .num st),
         ("core", .str c.name),
         ("proxy", pv),
         ("target", tv),
         ("web", .obj [("ui", .str ui.name), ("host", .str host), ("secret", .str secret)]),
         ("url", .str url),
         ("max_runtime_hours", .num mrh)]
        (show deStep pp pt (⟨none, none, none, none, none, none, none, none, none⟩ : DeAcc) "version" (.str version) = .ok (⟨some version, none, none, none, none, none, none, none, none⟩ : DeAcc) from
          rfl)
    have sB2 : deFields pp pt (⟨some version, none, none, none, none, none, none, none, none⟩ : DeAcc)
        [("start_time", .num st),
         ("core", .str c.name),
         ("proxy", pv),
         ("target", tv),
         ("web", .obj [("ui", .str ui.name), ("host", .str host), ("secret", .str secret)]),
         ("url", .str url),
         ("max_runtime_hours", .num mrh)] =
        deFields pp pt (⟨some version, some st, none, none, none, none, none, none, none⟩ : DeAcc)
        [("core", .str c.name),
         ("proxy", pv),
         ("target", tv),
         ("web", .obj [("ui", .str ui.name), ("host", .str host), ("secret", .str secret)]),
         ("url", .str url),
         ("max_runtime_hours", .num mrh)] :=
      deFields_cons_ok [("core", .str c.name),
         ("proxy", pv),
         ("target", tv),
         ("web", .obj [("ui", .str ui.name), ("host", .str host), ("secret", .str secret)]),
         ("url", .str url),
         ("max_runtime_hours", .num mrh)]
        (show deStep pp pt (⟨some version, none, none, none, none, none, none, none, none⟩ : DeAcc) "start_time" (.num st) = .ok (⟨some version, some st, none, none, none, none, none, none, none⟩ : DeAcc) from
          (by simp [deStep, hu64st]))
    have sB3 : deFields pp pt (⟨some version, some st, none, none, none, none, none, none, none⟩ : DeAcc)
        [("core", .str c.name),
         ("proxy", pv),
         ("target", tv),
         ("web", .obj [("ui", .str ui.name), ("host", .str host), ("secret", .str secret)]),
         ("url", .str url),
         ("max_runtime_hours", .num mrh)] =
        deFields pp pt (⟨some version, some st, some c, none, none, none, none, none, none⟩ : DeAcc)
        [("proxy", pv),
         ("target", tv),
         ("web", .obj [("ui", .str ui.name), ("host", .str host), ("secret", .str secret)]),
         ("url", .str url),
         ("max_runtime_hours", .num mrh)] :=
      deFields_cons_ok [("proxy", pv),
         ("target", tv),
         ("web", .obj [("ui", .str ui.name), ("host", .str host), ("secret", .str secret)]),
         ("url", .str url),
         ("max_runtime_hours", .num mrh)]
        (show deStep pp pt (⟨some version, some st, none, none, none, none, none, none, none⟩ : DeAcc) "core" (.str c.name) = .ok (⟨some version, some st, some c, none, none, none, none, none, none⟩ : DeAcc) from
          (by simp [deStep, parseCore_name]))
    have sB4 : deFields pp pt (⟨some version, some st, some c, none, none, none, none, none, none⟩ : DeAcc)
        [("proxy", pv),
         ("target", tv),
         ("web", .obj [("ui", .str ui.name), ("host", .str host), ("secret", .str secret)]),
         ("url", .str url),
         ("max_runtime_hours", .num mrh)] =
        deFields pp pt (⟨some version, some st, some c, some p, none, none, none, none, none⟩ : DeAcc)
        [("target", tv),
         ("web", .obj [("ui", .str ui.name), ("host", .str host), ("secret", .str secret)]),
         ("url", .str url),
         ("max_runtime_hours", .num mrh)] :=
      deFields_cons_ok [("target", tv),
         ("web", .obj [("ui", .str ui.name), ("host", .str host), ("secret", .str secret)]),
         ("url", .str url),
         ("max_runtime_hours", .num mrh)]
        (show deStep pp pt (⟨some version, some st, some c, none, none, none, none, none, none⟩ : DeAcc) "proxy" (pv) = .ok (⟨some version, some st, some c, some p, none, none, none, none, none⟩ : DeAcc) from
          (by simp [deStep, hp]))
    have sB5 : deFields pp pt (⟨some version, some st, some c, some p, none, none, none, none, none⟩ : DeAcc)
        [("target", tv),
         ("web", .obj [("ui", .str ui.name), ("host", .str host), ("secret", .str secret)]),
         ("url", .str url),
         ("max_runtime_hours", .num mrh)] =
        deFields pp pt (⟨some version, some st, some c, some p, some t, none, none, none, none⟩ : DeAcc)
        [("web", .obj [("ui", .str ui.name), ("host", .str host), ("secret", .str secret)]),
         ("url", .str url),
         ("max_runtime_hours", .num mrh)] :=
      deFields_cons_ok [("web", .obj [("ui", .str ui.name), ("host", .str host), ("secret", .str secret)]),
         ("url", .str url),
         ("max_runtime_hours", .num mrh)]
        (show deStep pp pt (⟨some version, some st, some c, some p, none, none, none, none, none⟩ : DeAcc) "target" (tv) = .ok (⟨some version, some st, some c, some p, some t, none, none, none, none⟩ : DeAcc) from
          (by simp [deStep, ht]))
    have sB6 : deFields pp pt (⟨some version, some st, some c, some p, some t, none, none, none, none⟩ : DeAcc)
        [("web", .obj [("ui", .str ui.name), ("host", .str host), ("secret", .str secret)]),
         ("url", .str url),
         ("max_runtime_hours", .num mrh)] =
        deFields pp pt (⟨some version, some st, some c, some p, some t, some { ui := ui, host := host, secret := secret }, none, none, none⟩ : DeAcc)
        [("url", .str url),
         ("max_runtime_hours", .num mrh)] :=
      deFields_cons_ok [("url", .str url),
         ("max_runtime_hours", .num mrh)]
        (show deStep pp pt (⟨some version, some st, some c, some p, some t, none, none, none, none⟩ : DeAcc) "web" (.obj [("ui", .str ui.name), ("host", .str host), ("secret", .str secret)]) = .ok (⟨some version, some st, some c, some p, some t, some { ui := ui, host := host, secret := secret }, none, none, none⟩ : DeAcc) from
          (by simp [deStep, hweb]))
    have sB7 : deFields pp pt (⟨some version, some st, some c, some p, some t, some { ui := ui, host := host, secret := secret }, none, none, none⟩ : DeAcc)
        [("url", .str url),
         ("max_runtime_hours", .num mrh)] =
        deFields pp pt (⟨some version, some st, some c, some p, some t, some { ui := ui, host := host, secret := secret }, some url, none, none⟩ : DeAcc)
        [("max_runtime_hours", .num mrh)] :=
      deFields_cons_ok [("max_runtime_hours", .num mrh)]
        (show deStep pp pt (⟨some version, some st, some c, some p, some t, some { ui := ui, host := host, secret := secret }, none, none, none⟩ : DeAcc) "url" (.str url) = .ok (⟨some version, some st, some c, some p, some t, some { ui := ui, host := host, secret := secret }, some url, none, none⟩ : DeAcc) from
          rfl)
    have sB8 : deFields pp pt (⟨some version, some st, some c, some p, some t, some { ui := ui, host := host, secret := secret }, some url, none, none⟩ : DeAcc)
        [("max_runtime_hours", .num mrh)] =
        deFields pp pt (⟨some version, some st, some c, some p, some t, some { ui := ui, host := host, secret := secret }, some url, some mrh, none⟩ : DeAcc)
        ([] : List (String × JValue)) :=
      deFields_cons_ok ([] : List (String × JValue))
        (show deStep pp pt (⟨some version, some st, some c, some p, some t, some { ui := ui, host := host, secret := secret }, some url, none, none⟩ : DeAcc) "max_runtime_hours" (.num mrh) = .ok (⟨some version, some st, some c, some p, some t, some { ui := ui, host := host, secret := secret }, some url, some mrh, none⟩ : DeAcc) from
          (by simp [deStep, hu64mrh]))
    have hDF : deFields pp pt (⟨none, none, none, none, none, none, none, none, none⟩ : DeAcc)
        [("version", .str version),
         ("start_time", .num st),
         ("core", .str c.name),
         ("proxy", pv),
         ("target", tv),
         ("web", .obj [("ui", .str ui.name), ("host", .str host), ("secret", .str secret)]),
         ("url", .str url),
         ("max_runtime_hours", .num mrh)] = .ok (⟨some version, some st, some c, some p, some t, some { ui := ui, host := host, secret := secret }, some url, some mrh, none⟩ : DeAcc) :=
      sB1.trans (sB2.trans (sB3.trans (sB4.trans (sB5.trans (sB6.trans (sB7.trans (sB8.trans rfl)))))))
    have hFin : deFinish (⟨some version, some st, some c, some p, some t, some { ui := ui, host := host, secret := secret }, some url, some mrh, none⟩ : DeAcc) = .ok ({ version := version, start_time := st, core := c, proxy := p, target := t, web := { ui := ui, host := host, secret := secret }, url := url, max_runtime_hours := mrh, stop_force := false } : CrashConfig) := rfl
    have hv : CrashConfig.hostValid ({ version := version, start_time := st, core := c, proxy := p, target := t, web := { ui := ui, host := host, secret := secret }, url := url, max_runtime_hours := mrh, stop_force := false } : CrashConfig) = true := hhost
    rw [load_unfold, deserialize_obj_unfold, hDF, deserialize_match_ok, hFin,
      load_match_ok, if_pos hv]
  ·
    have sC1 : deFields pp pt (⟨none, none, none, none, none, none, none, none, none⟩ : DeAcc)
        [("version", .str version),
         ("start_time", .num st),
         ("core", .str c.name),
         ("proxy", pv),
         ("target", tv),
         ("web", .obj [("ui", .str ui.name), ("host", .str host), ("secret", .str secret)]),
         ("url", .str url),
         ("stop_force", .bool sf)] =
        deFields pp pt (⟨some version, none, none, none, none, none, none, none, none⟩ : DeAcc)
        [("start_time", .num st),
         ("core", .str c.name),
         ("proxy", pv),
         ("target", tv),
         ("web", .obj [("ui", .str ui.name), ("host", .str host), ("secret", .str secret)]),
         ("url", .str url),
         ("stop_force", .bool sf)] :=
      deFields_cons_ok [("start_time", .num st),
         ("core", .str c.name),
         ("proxy", pv),
         ("target", tv),
         ("web", .obj [("ui", .str ui.name), ("host", .str host), ("secret", .str secret)]),
         ("url", .str url),
         ("stop_force", .bool sf)]
        (show deStep pp pt (⟨none, none, none, none, none, none, none, none, none⟩ : DeAcc) "version" (.str version) = .ok (⟨some version, none, none, none, none, none, none, none, none⟩ : DeAcc) from
          rfl)
    have sC2 : deFields pp pt (⟨some version, none, none, none, none, none, none, none, none⟩ : DeAcc)
        [("start_time", .num st),
         ("core", .str c.name),
         ("proxy", pv),
         ("target", tv),
         ("web", .obj [("ui", .str ui.name), ("host", .str host), ("secret", .str secret)]),
         ("url", .str url),
         ("stop_force", .bool sf)] =
        deFields pp pt (⟨some version, some st, none, none, none, none, none, none, none⟩ : DeAcc)
        [("core", .str c.name),
         ("proxy", pv),
         ("target", tv),
         ("web", .obj [("ui", .str ui.name), ("host", .str host), ("secret", .str secret)]),
         ("url", .str url),
         ("stop_force", .bool sf)] :=
      deFields_cons_ok [("core", .str c.name),
         ("proxy", pv),
         ("target", tv),
         ("web", .obj [("ui", .str ui.name), ("host", .str host), ("secret", .str secret)]),
         ("url", .str url),
         ("stop_force", .bool sf)]
        (show deStep pp pt (⟨some version, none, none, none, none, none, none, none, none⟩ : DeAcc) "start_time" (.num st) = .ok (⟨some version, some st, none, none, none, none, none, none, none⟩ : DeAcc) from
          (by simp [deStep, hu64st]))
    have sC3 : deFields pp pt (⟨some version, some st, none, none, none, none, none, none, none⟩ : DeAcc)
        [("core", .str c.name),
         ("proxy", pv),
         ("target", tv),
         ("web", .obj [("ui", .str ui.name), ("host", .str host), ("secret", .str secret)]),
         ("url", .str url),
         ("stop_force", .bool sf)] =
        deFields pp pt (⟨some version, some st, some c, none, none, none, none, none, none⟩ : DeAcc)
        [("proxy", pv),
         ("target", tv),
         ("web", .obj [("ui", .str ui.name), ("host", .str host), ("secret", .str secret)]),
         ("url", .str url),
         ("stop_force", .bool sf)] :=
      deFields_cons_ok [("proxy", pv),
         ("target", tv),
         ("web", .obj [("ui", .str ui.name), ("host", .str host), ("secret", .str secret)]),
         ("url", .str url),
         ("stop_force", .bool sf)]
        (show deStep pp pt (⟨some version, some st, none, none, none, none, none, none, none⟩ : DeAcc) "core" (.str c.name) = .ok (⟨some version, some st, some c, none, none, none, none, none, none⟩ : DeAcc) from
          (by simp [deStep, parseCore_name]))
    have sC4 : deFields pp pt (⟨some version, some st, some c, none, none, none, none, none, none⟩ : DeAcc)
        [("proxy", pv),
         ("target", tv),
         ("web", .obj [("ui", .str ui.name), ("host", .str host), ("secret", .str secret)]),
         ("url", .str url),
         ("stop_force", .bool sf)] =
        deFields pp pt (⟨some version, some st, some c, some p, none, none, none, none, none⟩ : DeAcc)
        [("target", tv),
         ("web", .obj [("ui", .str ui.name), ("host", .str host), ("secret", .str secret)]),
         ("url", .str url),
         ("stop_force", .bool sf)] :=
      deFields_cons_ok [("target", tv),
         ("web", .obj [("ui", .str ui.name), ("host", .str host), ("secret", .str secret)]),
         ("url", .str url),
         ("stop_force", .bool sf)]
        (show deStep pp pt (⟨some version, some st, some c, none, none, none, none, none, none⟩ : DeAcc) "proxy" (pv) = .ok (⟨some version, some st, some c, some p, none, none, none, none, none⟩ : DeAcc) from
          (by simp [deStep, hp]))
    have sC5 : deFields pp pt (⟨some version, some st, some c, some p, none, none, none, none, none⟩ : DeAcc)
        [("target", tv),
         ("web", .obj [("ui", .str ui.name), ("host", .str host), ("secret", .str secret)]),
         ("url", .str url),
         ("stop_force", .bool sf)] =
        deFields pp pt (⟨some version, some st, some c, some p, some t, none, none, none, none⟩ : DeAcc)
        [("web", .obj [("ui", .str ui.name), ("host", .str host), ("secret", .str secret)]),
         ("url", .str url),
         ("stop_force", .bool sf)] :=
      deFields_cons_ok [("web", .obj [("ui", .str ui.name), ("host", .str host), ("secret", .str secret)]),
         ("url", .str url),
         ("stop_force", .bool sf)]
        (show deStep pp pt (⟨some version, some st, some c, some p, none, none, none, none, none⟩ : DeAcc) "target" (tv) = .ok (⟨some version, some st, some c, some p, some t, none, none, none, none⟩ : DeAcc) from
          (by simp [deStep, ht]))
    have sC6 : deFields pp pt (⟨some version, some st, some c, some p, some t, none, none, none, none⟩ : DeAcc)
        [("web", .obj [("ui", .str ui.name), ("host", .str host), ("secret", .str secret)]),
         ("url", .str url),
         ("stop_force", .bool sf)] =
        deFields pp pt (⟨some version, some st, some c, some p, some t, some { ui := ui, host := host, secret := secret }, none, none, none⟩ : DeAcc)
        [("url", .str url),
         ("stop_force", .bool sf)] :=
      deFields_cons_ok [("url", .str url),
         ("stop_force", .bool sf)]
        (show deStep pp pt (⟨some version, some st, some c, some p, some t, none, none, none, none⟩ : DeAcc) "web" (.obj [("ui", .str ui.name), ("host", .str host), ("secret", .str secret)]) = .ok (⟨some version, some st, some c, some p, some t, some { ui := ui, host := host, secret := secret }, none, none, none⟩ : DeAcc) from
          (by simp [deStep, hweb]))
    have sC7 : deFields pp pt (⟨some version, some st, some c, some p, some t, some { ui := ui, host := host, secret := secret }, none, none, none⟩ : DeAcc)
        [("url", .str url),
         ("stop_force", .bool sf)] =
        deFields pp pt (⟨some version, some st, some c, some p, some t, some { ui := ui, host := host, secret := secret }, some url, none, none⟩ : DeAcc)
        [("stop_force", .bool sf)] :=
      deFields_cons_ok [("stop_force", .bool sf)]
        (show deStep pp pt (⟨some version, some st, some c, some p, some t, some { ui := ui, host := host, secret := secret }, none, none, none⟩ : DeAcc) "url" (.str url) = .ok (⟨some version, some st, some c, some p, some t, some { ui := ui, host := host, secret := secret }, some url, none, none⟩ : DeAcc) from
          rfl)
    have sC8 : deFields pp pt (⟨some version, some st, some c, some p, some t, some { ui := ui, host := host, secret := secret }, some url, none, none⟩ : DeAcc)
        [("stop_force", .bool sf)] =
        deFields pp pt (⟨some version, some st, some c, some p, some t, some { ui := ui, host := host, secret := secret }, some url, none, some sf⟩ : DeAcc)
        ([] : List (String × JValue)) :=
      deFields_cons_ok ([] : List (String × JValue))
        (show deStep pp pt (⟨some version, some st, some c, some p, some t, some { ui := ui, host := host, secret := secret }, some url, none, none⟩ : DeAcc) "stop_force" (.bool sf) = .ok (⟨some version, some st, some c, some p, some t, some { ui := ui, host := host, secret := secret }, some url, none, some sf⟩ : DeAcc) from
          rfl)
    have hDF : deFields pp pt (⟨none, none, none, none, none, none, none, none, none⟩ : DeAcc)
        [("version", .str version),
         ("start_time", .num st),
         ("core", .str c.name),
         ("proxy", pv),
         ("target", tv),
         ("web", .obj [("ui", .str ui.name), ("host", .str host), ("secret", .str secret)]),
         ("url", .str url),
         ("stop_force", .bool sf)] = .ok (⟨some version, some st, some c, some p, some t, some { ui := ui, host := host, secret := secret }, some url, none, some sf⟩ : DeAcc) :=
      sC1.trans (sC2.trans (sC3.trans (sC4.trans (sC5.trans (sC6.trans (sC7.trans (sC8.trans rfl)))))))
    have hFin : deFinish (⟨some version, some st, some c, some p, some t, some { ui := ui, host := host, secret := secret }, some url, none, some sf⟩ : DeAcc) = .error "missing field `max_runtime_hours`" := rfl
    rw [load_unfold, deserialize_obj_unfold, hDF, deserialize_match_ok, hFin,
      load_match_err]
    rfl
  ·
    have sD1 : deFields pp pt (⟨none, none, none, none, none, none, none, none, none⟩ : DeAcc)
        [("version", .str version),
         ("start_time", .num st),
         ("core", .str c.name),
         ("proxy", pv),
         ("target", tv),
         ("web", .obj [("ui", .str ui.name), ("host", .str host), ("secret", .str secret)]),
         ("max_runtime_hours", .num mrh),
         ("stop_force", .bool sf)] =
        deFields pp pt (⟨some version, none, none, none, none, none, none, none, none⟩ : DeAcc)
        [("start_time", .num st),
         ("core", .str c.name),
         ("proxy", pv),
         ("target", tv),
         ("web", .obj [("ui", .str ui.name), ("host", .str host), ("secret", .str secret)]),
         ("max_runtime_hours", .num mrh),
         ("stop_force", .bool sf)] :=
      deFields_cons_ok [("start_time", .num st),
         ("core", .str c.name),
         ("proxy", pv),
         ("target", tv),
         ("web", .obj [("ui", .str ui.name), ("host", .str host), ("secret", .str secret)]),
         ("max_runtime_hours", .num mrh),
         ("stop_force", .bool sf)]
        (show deStep pp pt (⟨none, none, none, none, none, none, none, none, none⟩ : DeAcc) "version" (.str version) = .ok (⟨some version, none, none, none, none, none, none, none, none⟩ : DeAcc) from
          rfl)
    have sD2 : deFields pp pt (⟨some version, none, none, none, none, none, none, none, none⟩ : DeAcc)
        [("start_time", .num st),
         ("core", .str c.name),
         ("proxy", pv),
         ("target", tv),
         ("web", .obj [("ui", .str ui.name), ("host", .str host), ("secret", .str secret)]),
         ("max_runtime_hours", .num mrh),
         ("stop_force", .bool sf)] =
        deFields pp pt (⟨some version, some st, none, none, none, none, none, none, none⟩ : DeAcc)
        [("core", .str c.name),
         ("proxy", pv),
         ("target", tv),
         ("web", .obj [("ui", .str ui.name), ("host", .str host), ("secret", .str secret)]),
         ("max_runtime_hours", .num mrh),
         ("stop_force", .bool sf)] :=
      deFields_cons_ok [("core", .str c.name),
         ("proxy", pv),
         ("target", tv),
         ("web", .obj [("ui", .str ui.name), ("host", .str host), ("secret", .str secret)]),
         ("max_runtime_hours", .num mrh),
         ("stop_force", .bool sf)]
        (show deStep pp pt (⟨some version, none, none, none, none, none, none, none, none⟩ : DeAcc) "start_time" (.num st) = .ok (⟨some version, some st, none, none, none, none, none, none, none⟩ : DeAcc) from
          (by simp [deStep, hu64st]))
    have sD3 : deFields pp pt (⟨some version, some st, none, none, none, none, none, none, none⟩ : DeAcc)
        [("core", .str c.name),
         ("proxy", pv),
         ("target", tv),
         ("web", .obj [("ui", .str ui.name), ("host", .str host), ("secret", .str secret)]),
         ("max_runtime_hours", .num mrh),
         ("stop_force", .bool sf)] =
        deFields pp pt (⟨some version, some st, some c, none, none, none, none, none, none⟩ : DeAcc)
        [("proxy", pv),
         ("target", tv),
         ("web", .obj [("ui", .str ui.name), ("host", .str host), ("secret", .str secret)]),
         ("max_runtime_hours", .num mrh),
         ("stop_force", .bool sf)] :=
      deFields_cons_ok [("proxy", pv),
         ("target", tv),
         ("web", .obj [("ui", .str ui.name), ("host", .str host), ("secret", .str secret)]),
         ("max_runtime_hours", .num mrh),
         ("stop_force", .bool sf)]
        (show deStep pp pt (⟨some version, some st, none, none, none, none, none, none, none⟩ : DeAcc) "core" (.str c.name) = .ok (⟨some version, some st, some c, none, none, none, none, none, none⟩ : DeAcc) from
          (by simp [deStep, parseCore_name]))
    have sD4 : deFields pp pt (⟨some version, some st, some c, none, none, none, none, none, none⟩ : DeAcc)
        [("proxy", pv),
         ("target", tv),
         ("web", .obj [("ui", .str ui.name), ("host", .str host), ("secret", .str secret)]),
         ("max_runtime_hours", .num mrh),
         ("stop_force", .bool sf)] =
        deFields pp pt (⟨some version, some st, some c, some p, none, none, none, none, none⟩ : DeAcc)
        [("target", tv),
         ("web", .obj [("ui", .str ui.name), ("host", .str host), ("secret", .str secret)]),
         ("max_runtime_hours", .num mrh),
         ("stop_force", .bool sf)] :=
      deFields_cons_ok [("target", tv),
         ("web", .obj [("ui", .str ui.name), ("host", .str host), ("secret", .str secret)]),
         ("max_runtime_hours", .num mrh),
         ("stop_force", .bool sf)]
        (show deStep pp pt (⟨some version, some st, some c, none, none, none, none, none, none⟩ : DeAcc) "proxy" (pv) = .ok (⟨some version, some st, some c, some p, none, none, none, none, none⟩ : DeAcc) from
          (by simp [deStep, hp]))
    have sD5 : deFields pp pt (⟨some version, some st, some c, some p, none, none, none, none, none⟩ : DeAcc)
        [("target", tv),
         ("web", .obj [("ui", .str ui.name), ("host", .str host), ("secret", .str secret)]),
         ("max_runtime_hours", .num mrh),
         ("stop_force", .bool sf)] =
        deFields pp pt (⟨some version, some st, some c, some p, some t, none, none, none, none⟩ : DeAcc)
        [("web", .obj [("ui", .str ui.name), ("host", .str host), ("secret", .str secret)]),
         ("max_runtime_hours", .num mrh),
         ("stop_force", .bool sf)] :=
      deFields_cons_ok [("web", .obj [("ui", .str ui.name), ("host", .str host), ("secret", .str secret)]),
         ("max_runtime_hours", .num mrh),
         ("stop_force", .bool sf)]
        (show deStep pp pt (⟨some version, some st, some c, some p, none, none, none, none, none⟩ : DeAcc) "target" (tv) = .ok (⟨some version, some st, some c, some p, some t, none, none, none, none⟩ : DeAcc) from
          (by simp [deStep, ht]))
    have sD6 : deFields pp pt (⟨some version, some st, some c, some p, some t, none, none, none, none⟩ : DeAcc)
        [("web", .obj [("ui", .str ui.name), ("host", .str host), ("secret", .str secret)]),
         ("max_runtime_hours", .num mrh),
         ("stop_force", .bool sf)] =
        deFields pp pt (⟨some version, some st, some c, some p, some t, some { ui := ui, host := host, secret := secret }, none, none, none⟩ : DeAcc)
        [("max_runtime_hours", .num mrh),
         ("stop_force", .bool sf)] :=
      deFields_cons_ok [("max_runtime_hours", .num mrh),
         ("stop_force", .bool sf)]
        (show deStep pp pt (⟨some version, some st, some c, some p, some t, none, none, none, none⟩ : DeAcc) "web" (.obj [("ui", .str ui.name), ("host", .str host), ("secret", .str secret)]) = .ok (⟨some version, some st, some c, some p, some t, some { ui := ui, host := host, secret := secret }, none, none, none⟩ : DeAcc) from
          (by simp [deStep, hweb]))
    have sD7 : deFields pp pt (⟨some version, some st, some c, some p, some t, some { ui := ui, host := host, secret := secret }, none, none, none⟩ : DeAcc)
        [("max_runtime_hours", .num mrh),
         ("stop_force", .bool sf)] =
        deFields pp pt (⟨some version, some st, some c, some p, some t, some { ui := ui, host := host, secret := secret }, none, some mrh, none⟩ : DeAcc)
        [("stop_force", .bool sf)] :=
      deFields_cons_ok [("stop_force", .bool sf)]
        (show deStep pp pt (⟨some version, some st, some c, some p, some t, some { ui := ui, host := host, secret := secret }, none, none, none⟩ : DeAcc) "max_runtime_hours" (.num mrh) = .ok (⟨some version, some st, some c, some p, some t, some { ui := ui, host := host, secret := secret }, none, some mrh, none⟩ : DeAcc) from
          (by simp [deStep, hu64mrh]))
    have sD8 : deFields pp pt (⟨some version, some st, some c, some p, some t, some { ui := ui, host := host, secret := secret }, none, some mrh, none⟩ : DeAcc)
        [("stop_force", .bool sf)] =
        deFields pp pt (⟨some version, some st, some c, some p, some t, some { ui := ui, host := host, secret := secret }, none, some mrh, some sf⟩ : DeAcc)
        ([] : List (String × JValue)) :=
      deFields_cons_ok ([] : List (String × JValue))
        (show deStep pp pt (⟨some version, some st, some c, some p, some t, some { ui := ui, host := host, secret := secret }, none, some mrh, none⟩ : DeAcc) "stop_force" (.bool sf) = .ok (⟨some version, some st, some c, some p, some t, some { ui := ui, host := host, secret := secret }, none, some mrh, some sf⟩ : DeAcc) from
          rfl)
    have hDF : deFields pp pt (⟨none, none, none, none, none, none, none, none, none⟩ : DeAcc)
        [("version", .str version),
         ("start_time", .num st),
         ("core", .str c.name),
         ("proxy", pv),
         ("target", tv),
         ("web", .obj [("ui", .str ui.name), ("host", .str host), ("secret", .str secret)]),
         ("max_runtime_hours", .num mrh),
         ("stop_force", .bool sf)] = .ok (⟨some version, some st, some c, some p, some t, some { ui := ui, host := host, secret := secret }, none, some mrh, some sf⟩ : DeAcc) :=
      sD1.trans (sD2.trans (sD3.trans (sD4.trans (sD5.trans (sD6.trans (sD7.trans (sD8.trans rfl)))))))
    have hFin : deFinish (⟨some version, some st, some c, some p, some t, some { ui := ui, host := host, secret := secret }, none, some mrh, some sf⟩ : DeAcc) = .error "missing field `url`" := rfl
    rw [load_unfold, deserialize_obj_unfold, hDF, deserialize_match_ok, hFin,
      load_match_err]
    rfl

/-- C5 witness: the amended behaviour at a concrete file (unknown field
ignored, `stop_force` defaulted, `max_runtime_hours` / `url` required),
using parser stubs for the external `Proxy` / `Target` deserializers. -/
theorem load_unknown_and_default_fields_witness :
    CrashConfig.load ppStub ptStub (.obj
        [("version", .str "0.1.0"), ("start_time", .num 10000),
         ("core", .str "Mihomo"), ("proxy", .str "Github"),
         ("target", .str "X86_64UnknownLinuxGnu"),
         ("web", .obj [("ui", .str "Metacubexd"), ("host", .str ":9090"),
                       ("secret", .str "")]),
         ("url", .str ""), ("max_runtime_hours", .num 0),
         ("stop_force", .bool false), ("a_future_field", .num 42)]) =
      .ok (cfgSample, [Eff.save cfgSample]) :=
  (load_unknown_and_default_fields ppStub ptStub (.str "Github")
    (.str "X86_64UnknownLinuxGnu") ⟨"Github"⟩ ⟨"X86_64UnknownLinuxGnu"⟩
    rfl rfl Core.Mihomo UiType.Metacubexd "0.1.0" ":9090" "" "" 10000 0 false
    (.num 42) (by decide) (by decide) (by decide)).1

/-! ## C7 — Mihomo patch idempotence -/

/-- `splitNl` never returns the empty list of segments. -/
theorem splitNl_ne_nil : ∀ s : List Char, splitNl s ≠ [] := by
  intro s
  cases s with
  | nil => simp [splitNl]
  | cons c rest =>
    simp only [splitNl]
    split
    · simp
    · split <;> simp

/-- Splitting at newlines distributes over an append whose seam is a
newline. -/
theorem splitNl_append_newline : ∀ (a b : List Char),
    splitNl (a ++ '\n' :: b) = splitNl a ++ splitNl b := by
  intro a b
  induction a with
  | nil => simp [splitNl]
  | cons c a' ih =>
    by_cases hc : c = '\n'
    · subst hc
      simp [splitNl, ih]
    · rcases h : splitNl a' with _ | ⟨l, ls⟩
      · exact absurd h (splitNl_ne_nil a')
      · simp [splitNl, hc, ih, h]

/-- `rustLines` splits an append at a newline seam: the lines before the
seam are exactly the segments of the left part (no final-segment dropping
applies there, the seam terminates it). -/
theorem rustLines_append_newline (a b : List Char) :
    rustLines (a ++ '\n' :: b) = (splitNl a).map stripCr ++ rustLines b := by
  unfold rustLines
  rw [splitNl_append_newline]
  rcases hsb : splitNl b with _ | ⟨l, ls⟩
  · exact absurd hsb (splitNl_ne_nil b)
  · dsimp only
    rw [List.getLast?_append_cons, List.dropLast_append_cons]
    by_cases hlast : (l :: ls).getLast? = some []
    · simp [hlast]
    · simp [hlast]

/-- After the Mihomo patch has appended the default tun block, the result
always contains a line starting with `tun` (the `tun:` line of the
block). -/
theorem hasTun_after_append (cfg : String) :
    (rustLines ((cfg ++ "\n" ++ TUN_PATCH)).data).any
      (fun i => List.isPrefixOf "tun".data i) = true := by
  have hdata : (cfg ++ "\n" ++ TUN_PATCH).data =
      cfg.data ++ '\n' :: TUN_PATCH.data := by
    show (cfg.data ++ ['\n']) ++ TUN_PATCH.data = cfg.data ++ '\n' :: TUN_PATCH.data
    simp
  rw [hdata, rustLines_append_newline, List.any_append]
  have htun : (rustLines TUN_PATCH.data).any
      (fun i => List.isPrefixOf "tun".data i) = true := by decide
  simp [htun]

/-- C7: the Mihomo patch is idempotent, appends the fixed default tun
block exactly when no line of the input begins with `tun`, and returns the
input unchanged otherwise. -/
theorem mihomo_patch_idempotent (cfg : String) :
    CrashConfig.patch_config_mihomo (CrashConfig.patch_config_mihomo cfg) =
      CrashConfig.patch_config_mihomo cfg ∧
    ((rustLines cfg.data).any (fun i => List.isPrefixOf "tun".data i) = false →
      CrashConfig.patch_config_mihomo cfg = cfg ++ "\n" ++ TUN_PATCH) ∧
    ((rustLines cfg.data).any (fun i => List.isPrefixOf "tun".data i) = true →
      CrashConfig.patch_config_mihomo cfg = cfg) := by
  refine ⟨?_, ?_, ?_⟩
  · by_cases h : (rustLines cfg.data).any (fun i => List.isPrefixOf "tun".data i) = true
    · simp [CrashConfig.patch_config_mihomo, h]
    · have h' : (rustLines cfg.data).any (fun i => List.isPrefixOf "tun".data i) = false :=
        Bool.eq_false_iff.mpr h
      have h1 : CrashConfig.patch_config_mihomo cfg = cfg ++ "\n" ++ TUN_PATCH := by
        simp [CrashConfig.patch_config_mihomo, h']
      have h2 : CrashConfig.patch_config_mihomo (cfg ++ "\n" ++ TUN_PATCH) =
          if (rustLines ((cfg ++ "\n" ++ TUN_PATCH)).data).any
              (fun i => List.isPrefixOf "tun".data i) then cfg ++ "\n" ++ TUN_PATCH
          else (cfg ++ "\n" ++ TUN_PATCH) ++ "\n" ++ TUN_PATCH := rfl
      rw [h1, h2, hasTun_after_append cfg]
      simp
  · intro h
    simp [CrashConfig.patch_config_mihomo, h]
  · intro h
    simp [CrashConfig.patch_config_mihomo, h]

/-- C7 witness: the Mihomo patch at the empty configuration — the first
application appends the tun block, the second is the identity. -/
theorem mihomo_patch_idempotent_witness :
    CrashConfig.patch_config_mihomo (CrashConfig.patch_config_mihomo "") =
      CrashConfig.patch_config_mihomo "" ∧
    CrashConfig.patch_config_mihomo "" = "" ++ "\n" ++ TUN_PATCH :=
  ⟨(mihomo_patch_idempotent "").1, (mihomo_patch_idempotent "").2.1 (by decide)⟩

/-! ## C1 — Clash RULE-SET neutralization -/

/-- C1 counterexample: re-running the Clash patch double-comments the
fragment — the replacement text `#- 'RULE-SET,` still contains the pattern
`- 'RULE-SET,`, so the second `str::replace` matches it again, and
`patch(Clash, patch(Clash, cfg)) ≠ patch(Clash, cfg)` at
`cfg = "- 'RULE-SET,foo'"`. -/
theorem clash_patch_double_comments :
    CrashConfig.patch_config_clash (CrashConfig.patch_config_clash "- 'RULE-SET,foo'") =
      "##- 'RULE-SET,foo'" ∧
    CrashConfig.patch_config_clash (CrashConfig.patch_config_clash "- 'RULE-SET,foo'") ≠
      CrashConfig.patch_config_clash "- 'RULE-SET,foo'" := by
  constructor
  · decide
  · decide

/-- The pattern `- 'RULE-SET,` is not a Boolean prefix of any list whose
head is not `'-'`. -/
theorem rs_head_mismatch (c : Char) (l : List Char) (h : ('-' == c) = false) :
    List.isPrefixOf "- 'RULE-SET,".data (c :: l) = false := by
  show (('-' == c) && List.isPrefixOf " 'RULE-SET,".data l) = false
  rw [h, Bool.false_and]

/-- The pattern `- 'RULE-SET,` is not a Boolean prefix of any list whose
second character is not `' '`. -/
theorem rs_second_mismatch (c : Char) (l : List Char) (h : (' ' == c) = false) :
    List.isPrefixOf "- 'RULE-SET,".data ('-' :: c :: l) = false := by
  show (('-' == '-') && ((' ' == c) && List.isPrefixOf "'RULE-SET,".data l)) = false
  rw [h, Bool.false_and, Bool.and_false]

/-- `replaceGo` unfolded at skip `0` on a cons cell. -/
theorem replaceGo_zero_cons (pat rep : List Char) (c : Char) (l : List Char) :
    replaceGo pat rep 0 (c :: l) =
      if pat.isPrefixOf (c :: l) then rep ++ replaceGo pat rep (pat.length - 1) l
      else c :: replaceGo pat rep 0 l := rfl

/-- `replaceGo` copies a character that does not start a match. -/
theorem replaceGo_not_match (pat rep : List Char) (c : Char) (l : List Char)
    (h : pat.isPrefixOf (c :: l) = false) :
    replaceGo pat rep 0 (c :: l) = c :: replaceGo pat rep 0 l := by
  rw [replaceGo_zero_cons, h]
  simp

/-- The characters `foo'` of the needle's tail never start a match of the
RULE-SET pattern, so `replaceGo` copies them verbatim. -/
theorem rs_copy_foo (t : List Char) :
    replaceGo "- 'RULE-SET,".data "#- 'RULE-SET,".data 0
        ('f' :: 'o' :: 'o' :: '\'' :: t) =
      'f' :: 'o' :: 'o' :: '\'' ::
        replaceGo "- 'RULE-SET,".data "#- 'RULE-SET,".data 0 t := by
  rw [replaceGo_not_match _ _ _ _ (rs_head_mismatch 'f' _ rfl),
    replaceGo_not_match _ _ _ _ (rs_head_mismatch 'o' _ rfl),
    replaceGo_not_match _ _ _ _ (rs_head_mismatch 'o' _ rfl),
    replaceGo_not_match _ _ _ _ (rs_head_mismatch '\'' _ rfl)]

/-- One full replacement step: on a match, `replaceGo` emits the
replacement and continues right after the matched pattern. -/
theorem rs_replace_match (t : List Char) :
    replaceGo "- 'RULE-SET,".data "#- 'RULE-SET,".data 0
        ("- 'RULE-SET,".data ++ t) =
      "#- 'RULE-SET,".data ++
        replaceGo "- 'RULE-SET,".data "#- 'RULE-SET,".data 0 t := by
  show replaceGo "- 'RULE-SET,".data "#- 'RULE-SET,".data 0
      ('-' :: (" 'RULE-SET,".data ++ t)) = _
  rw [replaceGo_zero_cons,
    show List.isPrefixOf "- 'RULE-SET,".data ('-' :: (" 'RULE-SET,".data ++ t)) = true from
      isPrefixOf_self_append "- 'RULE-SET,".data t,
    if_pos rfl,
    show ("- 'RULE-SET,".data.length - 1) = (" 'RULE-SET,".data).length from rfl,
    replaceGo_skip]

/-- Dropping a leading character that does not start a match preserves
containment of the needle `- 'RULE-SET,foo'`. -/
theorem rs_contains_cons_elim (c : Char) (u t : List Char)
    (hne : List.isPrefixOf "- 'RULE-SET,".data (c :: (u ++ t)) = false)
    (h : rustContains "- 'RULE-SET,foo'".data (c :: (u ++ t)) = true) :
    rustContains "- 'RULE-SET,foo'".data (u ++ t) = true := by
  rw [rustContains_cons] at h
  rcases (Bool.or_eq_true _ _).mp h with h1 | h1
  · have h2 : List.isPrefixOf "- 'RULE-SET,".data (c :: (u ++ t)) = true :=
      isPrefixOf_of_append_left "- 'RULE-SET,".data "foo'".data _ h1
    rw [hne] at h2
    exact absurd h2 (by simp)
  · exact h1

/-- Core of the C1 amendment: every input containing `- 'RULE-SET,foo'`
is replaced into an output containing `#- 'RULE-SET,foo'` (strong
induction on the input length, following the replacement scan). -/
theorem rs_contains_replace : ∀ (n : Nat) (s : List Char), s.length ≤ n →
    rustContains "- 'RULE-SET,foo'".data s = true →
    rustContains "#- 'RULE-SET,foo'".data
      (replaceGo "- 'RULE-SET,".data "#- 'RULE-SET,".data 0 s) = true := by
  intro n
  induction n with
  | zero =>
    intro s hlen hc
    have hs : s = [] := List.length_eq_zero.mp (Nat.le_zero.mp hlen)
    subst hs
    exact absurd hc (by decide)
  | succ n ih =>
    intro s hlen hc
    cases s with
    | nil => exact absurd hc (by decide)
    | cons c rest =>
      by_cases hp : List.isPrefixOf "- 'RULE-SET,".data (c :: rest) = true
      · obtain ⟨t, ht⟩ := (isPrefixOf_iff_append _ _).mp hp
        rw [ht] at hc hlen ⊢
        rw [rs_replace_match]
        by_cases hn : List.isPrefixOf "- 'RULE-SET,foo'".data
            ("- 'RULE-SET,".data ++ t) = true
        · obtain ⟨u, hu⟩ := (isPrefixOf_iff_append _ _).mp hn
          have hu' : "- 'RULE-SET,".data ++ t =
              "- 'RULE-SET,".data ++ ("foo'".data ++ u) := by
            rw [hu]
            show ("- 'RULE-SET,".data ++ "foo'".data) ++ u = _
            rw [List.append_assoc]
          have htu : t = "foo'".data ++ u := List.append_cancel_left hu'
          rw [htu,
            show replaceGo "- 'RULE-SET,".data "#- 'RULE-SET,".data 0
                ("foo'".data ++ u) =
              "foo'".data ++
                replaceGo "- 'RULE-SET,".data "#- 'RULE-SET,".data 0 u from
              rs_copy_foo u]
          apply rustContains_of_isPrefixOf
          rw [← List.append_assoc]
          exact isPrefixOf_self_append "#- 'RULE-SET,foo'".data _
        · have hsplit : rustContains "- 'RULE-SET,foo'".data
              (" 'RULE-SET,".data ++ t) = true := by
            have hc' : rustContains "- 'RULE-SET,foo'".data
                ('-' :: (" 'RULE-SET,".data ++ t)) = true := hc
            rw [rustContains_cons] at hc'
            rcases (Bool.or_eq_true _ _).mp hc' with h1 | h1
            · exact absurd (show List.isPrefixOf "- 'RULE-SET,foo'".data
                ("- 'RULE-SET,".data ++ t) = true from h1) hn
            · exact h1
          have s2 := rs_contains_cons_elim ' ' "'RULE-SET,".data t
            (rs_head_mismatch _ _ rfl) hsplit
          have s3 := rs_contains_cons_elim '\'' "RULE-SET,".data t
            (rs_head_mismatch _ _ rfl) s2
          have s4 := rs_contains_cons_elim 'R' "ULE-SET,".data t
            (rs_head_mismatch _ _ rfl) s3
          have s5 := rs_contains_cons_elim 'U' "LE-SET,".data t
            (rs_head_mismatch _ _ rfl) s4
          have s6 := rs_contains_cons_elim 'L' "E-SET,".data t
            (rs_head_mismatch _ _ rfl) s5
          have s7 := rs_contains_cons_elim 'E' "-SET,".data t
            (rs_head_mismatch _ _ rfl) s6
          have s8 := rs_contains_cons_elim '-' "SET,".data t
            (rs_second_mismatch _ _ rfl) s7
          have s9 := rs_contains_cons_elim 'S' "ET,".data t
            (rs_head_mismatch _ _ rfl) s8
          have s10 := rs_contains_cons_elim 'E' "T,".data t
            (rs_head_mismatch _ _ rfl) s9
          have s11 := rs_contains_cons_elim 'T' ",".data t
            (rs_head_mismatch _ _ rfl) s10
          have s12 := rs_contains_cons_elim ',' [] t
            (rs_head_mismatch _ _ rfl) s11
          have ht12 : rustContains "- 'RULE-SET,foo'".data t = true := s12
          have hlen' : t.length ≤ n := by
            have hL : ("- 'RULE-SET,".data ++ t).length = 12 + t.length := by
              simp
              omega
            omega
          exact rustContains_append_left _ "#- 'RULE-SET,".data _ (ih t hlen' ht12)
      · have hp' : List.isPrefixOf "- 'RULE-SET,".data (c :: rest) = false :=
          Bool.eq_false_iff.mpr hp
        rw [replaceGo_not_match _ _ _ _ hp']
        rw [rustContains_cons] at hc
        rcases (Bool.or_eq_true _ _).mp hc with h1 | h1
        · have h2 : List.isPrefixOf "- 'RULE-SET,".data (c :: rest) = true :=
            isPrefixOf_of_append_left "- 'RULE-SET,".data "foo'".data _ h1
          rw [hp'] at h2
          exact absurd h2 (by simp)
        · have hlen' : rest.length ≤ n := by
            simp only [List.length_cons] at hlen
            omega
          have hres := ih rest hlen' h1
          rw [rustContains_cons, hres, Bool.or_true]

/-- C1 (amended): for every configuration text containing the fragment
`- 'RULE-SET,foo'`, the Clash patch output contains `#- 'RULE-SET,foo'`;
the patch is however not idempotent — a second application prefixes a
further `#` (see the counterexample). -/
theorem clash_rule_set_neutralization (cfg : String)
    (h : rustContains "- 'RULE-SET,foo'".data cfg.data = true) :
    rustContains "#- 'RULE-SET,foo'".data
      (CrashConfig.patch_config_clash cfg).data = true :=
  rs_contains_replace cfg.data.length cfg.data (Nat.le_refl _) h

/-- C1 witness: the neutralization at the fragment itself. -/
theorem clash_rule_set_neutralization_witness :
    rustContains "#- 'RULE-SET,foo'".data
      (CrashConfig.patch_config_clash "- 'RULE-SET,foo'").data = true :=
  clash_rule_set_neutralization "- 'RULE-SET,foo'" (by decide)

/-! ## C9 — `merge_json` never deletes or overwrites, only inserts -/

/-- `updateA` at the looked-up key overwrites the first binding. -/
theorem lookupA_updateA_self (m : List (String × JValue)) (k : String)
    (v dv : JValue) (h : lookupA m k = some dv) :
    lookupA (updateA m k v) k = some v := by
  induction m with
  | nil => simp [lookupA] at h
  | cons kv rest ih =>
    obtain ⟨k', v'⟩ := kv
    by_cases hk : k' = k
    · subst hk
      simp [lookupA, updateA]
    · simp only [lookupA, updateA, if_neg hk] at h ⊢
      exact ih h

/-- `updateA` leaves every other key's lookup unchanged. -/
theorem lookupA_updateA_ne (m : List (String × JValue)) (k k' : String)
    (v : JValue) (h : k' ≠ k) :
    lookupA (updateA m k v) k' = lookupA m k' := by
  induction m with
  | nil => simp [updateA, lookupA]
  | cons kv rest ih =>
    obtain ⟨k0, v0⟩ := kv
    by_cases hk0 : k0 = k
    · subst hk0
      have : ¬ k0 = k' := fun hh => h hh.symm
      simp [updateA, lookupA, this]
    · by_cases hk0' : k0 = k'
      · subst hk0'
        simp [updateA, lookupA, hk0]
      · simp [updateA, lookupA, hk0, hk0', ih]

/-- Appending bindings does not shadow an existing one. -/
theorem lookupA_append_some (m m2 : List (String × JValue)) (k : String)
    (u : JValue) (h : lookupA m k = some u) :
    lookupA (m ++ m2) k = some u := by
  induction m with
  | nil => simp [lookupA] at h
  | cons kv rest ih =>
    obtain ⟨k', v'⟩ := kv
    by_cases hk : k' = k
    · subst hk
      simp [lookupA] at h ⊢
      exact h
    · simp only [List.cons_append, lookupA, if_neg hk] at h ⊢
      exact ih h

/-- A key absent from the front list is looked up in the appended one. -/
theorem lookupA_append_none (m m2 : List (String × JValue)) (k : String)
    (h : lookupA m k = none) :
    lookupA (m ++ m2) k = lookupA m2 k := by
  induction m with
  | nil => simp
  | cons kv rest ih =>
    obtain ⟨k', v'⟩ := kv
    by_cases hk : k' = k
    · subst hk
      simp [lookupA] at h
    · simp only [List.cons_append, lookupA, if_neg hk] at h ⊢
      exact ih h

/-- A key that no binding carries looks up to `none`. -/
theorem lookupA_not_hasKey (m : List (String × JValue)) (k : String)
    (h : (m.any (fun kv => kv.1 == k)) = false) :
    lookupA m k = none := by
  induction m with
  | nil => rfl
  | cons kv rest ih =>
    obtain ⟨k', v'⟩ := kv
    simp only [List.any_cons, Bool.or_eq_false_iff] at h
    have hk : ¬ k' = k := by
      intro hh
      rw [hh] at h
      simp at h
    simp only [lookupA, if_neg hk]
    exact ih h.2

/-- The head value of a source object is smaller than the object. -/
theorem sizeOf_head_val_lt (k : String) (w : JValue)
    (rest : List (String × JValue)) :
    sizeOf w < sizeOf (JValue.obj ((k, w) :: rest)) := by
  simp
  omega

/-- The tail of a source object is smaller than the object. -/
theorem sizeOf_obj_tail_lt (k : String) (w : JValue)
    (rest : List (String × JValue)) :
    sizeOf (JValue.obj rest) < sizeOf (JValue.obj ((k, w) :: rest)) := by
  simp

/-- `mergeJson` on objects processes the first source binding, then the
rest. -/
theorem mergeJson_obj_cons (dm : List (String × JValue)) (k : String)
    (w : JValue) (rest : List (String × JValue)) :
    mergeJson (.obj dm) (.obj ((k, w) :: rest)) =
      mergeJson (.obj (match lookupA dm k with
        | some dv => updateA dm k (mergeJson dv w)
        | none => dm ++ [(k, w)])) (.obj rest) := rfl

/-- `mergeJson` with an exhausted source is the destination. -/
theorem mergeJson_obj_nil (dm : List (String × JValue)) :
    mergeJson (.obj dm) (.obj []) = .obj dm := rfl

/-- A non-object source leaves the destination unchanged. -/
theorem mergeJson_src_not_obj (dst src : JValue) (h : src.isObj = false) :
    mergeJson dst src = dst := by
  cases dst <;> cases src <;> simp_all [mergeJson, JValue.isObj]

/-- A non-object destination is returned unchanged. -/
theorem mergeJson_dst_not_obj (dst src : JValue) (h : dst.isObj = false) :
    mergeJson dst src = dst := by
  cases dst <;> cases src <;> simp_all [mergeJson, JValue.isObj]

/-- `lookupPath` on an object and a nonempty path follows the key. -/
theorem lookupPath_obj_cons (m : List (String × JValue)) (k : String)
    (ks : List String) :
    lookupPath (.obj m) (k :: ks) =
      match lookupA m k with
      | some v => lookupPath v ks
      | none => none := rfl

/-- Inserting a fresh binding at the end of a destination map preserves
every defined path with its exact value. -/
theorem step_preserves_insert (dm : List (String × JValue)) (k : String)
    (w : JValue) :
    ∀ (p : List String) (v : JValue), lookupPath (.obj dm) p = some v →
      ∃ v1, lookupPath (.obj (dm ++ [(k, w)])) p = some v1 ∧
        (v.isObj = false → v1 = v) := by
  intro p v hv
  cases p with
  | nil =>
    refine ⟨.obj (dm ++ [(k, w)]), rfl, fun hno => ?_⟩
    have hv' : JValue.obj dm = v := by simpa [lookupPath] using hv
    rw [← hv'] at hno
    simp [JValue.isObj] at hno
  | cons k' ks =>
    rw [lookupPath_obj_cons] at hv
    rcases hdm : lookupA dm k' with _ | u
    · rw [hdm] at hv
      simp at hv
    · rw [hdm] at hv
      refine ⟨v, ?_, fun _ => rfl⟩
      rw [lookupPath_obj_cons, lookupA_append_some dm [(k, w)] k' u hdm]
      exact hv

/-- Merging into the value of an existing binding preserves every defined
path of the destination, given the recursive preservation property for
that value. -/
theorem step_preserves_update (dm : List (String × JValue)) (k : String)
    (dv w : JValue) (hlk : lookupA dm k = some dv)
    (hrec : ∀ (ks : List String) (v : JValue), lookupPath dv ks = some v →
      ∃ v', lookupPath (mergeJson dv w) ks = some v' ∧ (v.isObj = false → v' = v)) :
    ∀ (p : List String) (v : JValue), lookupPath (.obj dm) p = some v →
      ∃ v1, lookupPath (.obj (updateA dm k (mergeJson dv w))) p = some v1 ∧
        (v.isObj = false → v1 = v) := by
  intro p v hv
  cases p with
  | nil =>
    refine ⟨.obj (updateA dm k (mergeJson dv w)), rfl, fun hno => ?_⟩
    have hv' : JValue.obj dm = v := by simpa [lookupPath] using hv
    rw [← hv'] at hno
    simp [JValue.isObj] at hno
  | cons k' ks =>
    rw [lookupPath_obj_cons] at hv
    by_cases hk : k' = k
    · subst hk
      rw [hlk] at hv
      obtain ⟨v', h1, h2⟩ := hrec ks v hv
      refine ⟨v', ?_, h2⟩
      rw [lookupPath_obj_cons, lookupA_updateA_self dm k' (mergeJson dv w) dv hlk]
      exact h1
    · rcases hdm : lookupA dm k' with _ | u
      · rw [hdm] at hv
        simp at hv
      · rw [hdm] at hv
        refine ⟨v, ?_, fun _ => rfl⟩
        rw [lookupPath_obj_cons, lookupA_updateA_ne dm k k' _ hk, hdm]
        exact hv

/-- `merge_json` never deletes a key and never changes a non-object value:
every path defined in the destination stays defined after the merge, with
the same value whenever that value is not itself an object. -/
theorem mergeJson_preserves_paths : ∀ (N : Nat) (src : JValue), sizeOf src ≤ N →
    ∀ (dst : JValue) (p : List String) (v : JValue),
      lookupPath dst p = some v →
      ∃ v', lookupPath (mergeJson dst src) p = some v' ∧
        (v.isObj = false → v' = v) := by
  intro N
  induction N with
  | zero =>
    intro src hsz
    exact absurd hsz (by cases src <;> simp)
  | succ N ih =>
    intro src hsz dst p v hl
    by_cases hs : src.isObj = true
    case neg =>
      rw [mergeJson_src_not_obj dst src (Bool.eq_false_iff.mpr hs)]
      exact ⟨v, hl, fun _ => rfl⟩
    by_cases hd : dst.isObj = true
    case neg =>
      rw [mergeJson_dst_not_obj dst src (Bool.eq_false_iff.mpr hd)]
      exact ⟨v, hl, fun _ => rfl⟩
    rcases dst with _ | b | n0 | s0 | xs | dm <;> simp [JValue.isObj] at hd
    rcases src with _ | b2 | n2 | s2 | xs2 | sm <;> simp [JValue.isObj] at hs
    cases sm with
    | nil =>
      rw [mergeJson_obj_nil]
      exact ⟨v, hl, fun _ => rfl⟩
    | cons kv rest =>
      obtain ⟨k, w⟩ := kv
      have hszw : sizeOf w ≤ N := by
        have h1 := sizeOf_head_val_lt k w rest
        omega
      have hszr : sizeOf (JValue.obj rest) ≤ N := by
        have h1 := sizeOf_obj_tail_lt k w rest
        omega
      rw [mergeJson_obj_cons]
      rcases hlk : lookupA dm k with _ | dv
      · simp only [hlk]
        obtain ⟨v1, h1, i1⟩ := step_preserves_insert dm k w p v hl
        obtain ⟨v2, h2, i2⟩ := ih (.obj rest) hszr (.obj (dm ++ [(k, w)])) p v1 h1
        refine ⟨v2, h2, fun hno => ?_⟩
        have e1 : v1 = v := i1 hno
        have hno1 : v1.isObj = false := by rw [e1]; exact hno
        rw [i2 hno1, e1]
      · simp only [hlk]
        have hrec := fun ks vv hv => ih w hszw dv ks vv hv
        obtain ⟨v1, h1, i1⟩ := step_preserves_update dm k dv w hlk hrec p v hl
        obtain ⟨v2, h2, i2⟩ :=
          ih (.obj rest) hszr (.obj (updateA dm k (mergeJson dv w))) p v1 h1
        refine ⟨v2, h2, fun hno => ?_⟩
        have e1 : v1 = v := i1 hno
        have hno1 : v1.isObj = false := by rw [e1]; exact hno
        rw [i2 hno1, e1]

/-- A path defined after appending a fresh binding was either already
defined or goes through the new key. -/
theorem step_new_insert (dm : List (String × JValue)) (k : String) (w : JValue)
    (hlk : lookupA dm k = none) :
    ∀ p : List String, (lookupPath (.obj (dm ++ [(k, w)])) p).isSome = true →
      (lookupPath (.obj dm) p).isSome = true ∨
      (∃ ps, p = k :: ps ∧ (lookupPath w ps).isSome = true) := by
  intro p h
  cases p with
  | nil => exact Or.inl rfl
  | cons k' ks =>
    rw [lookupPath_obj_cons] at h
    by_cases hk : k' = k
    · subst hk
      rw [lookupA_append_none dm [(k', w)] k' hlk] at h
      simp [lookupA] at h
      exact Or.inr ⟨ks, rfl, h⟩
    · rcases hdm : lookupA dm k' with _ | u
      · rw [lookupA_append_none dm [(k, w)] k' hdm] at h
        have hk' : ¬ k = k' := fun hh => hk hh.symm
        simp [lookupA, hk'] at h
      · left
        rw [lookupA_append_some dm [(k, w)] k' u hdm] at h
        rw [lookupPath_obj_cons, hdm]
        exact h

/-- A path defined after merging into an existing binding was either
already defined or goes through the merged key into the source value. -/
theorem step_new_update (dm : List (String × JValue)) (k : String)
    (dv w : JValue) (hlk : lookupA dm k = some dv)
    (hrec : ∀ ps : List String, (lookupPath (mergeJson dv w) ps).isSome = true →
      (lookupPath dv ps).isSome = true ∨ (lookupPath w ps).isSome = true) :
    ∀ p : List String,
      (lookupPath (.obj (updateA dm k (mergeJson dv w))) p).isSome = true →
      (lookupPath (.obj dm) p).isSome = true ∨
      (∃ ps, p = k :: ps ∧ (lookupPath w ps).isSome = true) := by
  intro p h
  cases p with
  | nil => exact Or.inl rfl
  | cons k' ks =>
    rw [lookupPath_obj_cons] at h
    by_cases hk : k' = k
    · subst hk
      rw [lookupA_updateA_self dm k' (mergeJson dv w) dv hlk] at h
      have h' : (lookupPath (mergeJson dv w) ks).isSome = true := h
      rcases hrec ks h' with h1 | h1
      · left
        rw [lookupPath_obj_cons, hlk]
        exact h1
      · exact Or.inr ⟨ks, rfl, h1⟩
    · rw [lookupA_updateA_ne dm k k' _ hk] at h
      left
      rw [lookupPath_obj_cons]
      exact h

/-- A path defined in the tail of a duplicate-free object is defined in
the whole object. -/
theorem lookupPath_obj_tail_lift (k : String) (w : JValue)
    (rest : List (String × JValue))
    (hnk : (rest.any (fun kv => kv.1 == k)) = false) (p : List String)
    (h : (lookupPath (.obj rest) p).isSome = true) :
    (lookupPath (.obj ((k, w) :: rest)) p).isSome = true := by
  cases p with
  | nil => rfl
  | cons k' ks =>
    rw [lookupPath_obj_cons] at h ⊢
    rcases hr : lookupA rest k' with _ | u
    · rw [hr] at h
      simp at h
    · rw [hr] at h
      have hk : ¬ k = k' := by
        intro hh
        subst hh
        rw [lookupA_not_hasKey rest k hnk] at hr
        cases hr
      simp only [lookupA, if_neg hk, hr]
      exact h

/-- A path through the head key of an object is defined whenever it is
defined in the head value. -/
theorem lookupPath_obj_head_lift (k : String) (w : JValue)
    (rest : List (String × JValue)) (ps : List String)
    (h : (lookupPath w ps).isSome = true) :
    (lookupPath (.obj ((k, w) :: rest)) (k :: ps)).isSome = true := by
  rw [lookupPath_obj_cons]
  simp only [lookupA, if_pos rfl]
  exact h

/-- Decomposing `dupFree` on an object's first binding. -/
theorem dupFree_obj_cons_elim (k : String) (w : JValue)
    (rest : List (String × JValue))
    (h : dupFree (.obj ((k, w) :: rest)) = true) :
    (rest.any (fun kv => kv.1 == k)) = false ∧ dupFree w = true ∧
      dupFree (.obj rest) = true := by
  simp only [dupFree, dupFreeFields, keysDupFree, Bool.and_eq_true] at h
  refine ⟨?_, h.2.1, ?_⟩
  · have h1 := h.1.1
    simpa using h1
  · simp only [dupFree, Bool.and_eq_true]
    exact ⟨h.1.2, h.2.2⟩

/-- `merge_json` only inserts keys that were missing: every path defined
after the merge was defined in the destination or in the (duplicate-free)
source. -/
theorem mergeJson_new_paths : ∀ (N : Nat) (src : JValue), sizeOf src ≤ N →
    dupFree src = true →
    ∀ (dst : JValue) (p : List String),
      (lookupPath (mergeJson dst src) p).isSome = true →
      (lookupPath dst p).isSome = true ∨ (lookupPath src p).isSome = true := by
  intro N
  induction N with
  | zero =>
    intro src hsz
    exact absurd hsz (by cases src <;> simp)
  | succ N ih =>
    intro src hsz hdup dst p h
    by_cases hs : src.isObj = true
    case neg =>
      rw [mergeJson_src_not_obj dst src (Bool.eq_false_iff.mpr hs)] at h
      exact Or.inl h
    by_cases hd : dst.isObj = true
    case neg =>
      rw [mergeJson_dst_not_obj dst src (Bool.eq_false_iff.mpr hd)] at h
      exact Or.inl h
    rcases dst with _ | b | n0 | s0 | xs | dm <;> simp [JValue.isObj] at hd
    rcases src with _ | b2 | n2 | s2 | xs2 | sm <;> simp [JValue.isObj] at hs
    cases sm with
    | nil =>
      rw [mergeJson_obj_nil] at h
      exact Or.inl h
    | cons kv rest =>
      obtain ⟨k, w⟩ := kv
      obtain ⟨hnk, hdw, hdrest⟩ := dupFree_obj_cons_elim k w rest hdup
      have hszw : sizeOf w ≤ N := by
        have h1 := sizeOf_head_val_lt k w rest
        omega
      have hszr : sizeOf (JValue.obj rest) ≤ N := by
        have h1 := sizeOf_obj_tail_lt k w rest
        omega
      rw [mergeJson_obj_cons] at h
      rcases hlk : lookupA dm k with _ | dv
      · simp only [hlk] at h
        rcases ih (.obj rest) hszr hdrest (.obj (dm ++ [(k, w)])) p h with h1 | h1
        · rcases step_new_insert dm k w hlk p h1 with h2 | ⟨ps, hps, h2⟩
          · exact Or.inl h2
          · subst hps
            exact Or.inr (lookupPath_obj_head_lift k w rest ps h2)
        · exact Or.inr (lookupPath_obj_tail_lift k w rest hnk p h1)
      · simp only [hlk] at h
        have hrec := fun ps hh => ih w hszw hdw dv ps hh
        rcases ih (.obj rest) hszr hdrest
            (.obj (updateA dm k (mergeJson dv w))) p h with h1 | h1
        · rcases step_new_update dm k dv w hlk hrec p h1 with h2 | ⟨ps, hps, h2⟩
          · exact Or.inl h2
          · subst hps
            exact Or.inr (lookupPath_obj_head_lift k w rest ps h2)
        · exact Or.inr (lookupPath_obj_tail_lift k w rest hnk p h1)

/-- C9: merging the default `experimental` patch into a parsed Sing-box
configuration never deletes a key and never changes the value of any key
path the input already defines with a non-object value (objects only ever
gain keys); conversely every path defined after the merge was defined in
the input or in the patch — the merge only inserts missing keys, recursing
through nested objects. -/
theorem merge_json_preserves (ui secret : String) (dst : JValue) :
    (∀ (p : List String) (v : JValue), lookupPath dst p = some v →
      ∃ v', lookupPath (mergeJson dst (experimentalPatch ui secret)) p = some v' ∧
        (v.isObj = false → v' = v)) ∧
    (∀ p : List String,
      (lookupPath (mergeJson dst (experimentalPatch ui secret)) p).isSome = true →
        (lookupPath dst p).isSome = true ∨
        (lookupPath (experimentalPatch ui secret) p).isSome = true) := by
  constructor
  · intro p v hv
    exact mergeJson_preserves_paths (sizeOf (experimentalPatch ui secret)) _
      (Nat.le_refl _) dst p v hv
  · intro p h
    exact mergeJson_new_paths (sizeOf (experimentalPatch ui secret)) _
      (Nat.le_refl _) rfl dst p h

/-- C9 witness: a scalar at path `["a"]` in the input survives the merge
with its exact value. -/
theorem merge_json_preserves_witness :
    ∃ v', lookupPath
        (mergeJson (.obj [("a", .num 1)]) (experimentalPatch "u" "s")) ["a"] =
          some v' ∧
      ((JValue.num 1).isObj = false → v' = JValue.num 1) :=
  (merge_json_preserves "u" "s" (.obj [("a", .num 1)])).1 ["a"] (.num 1) rfl
